import Mathlib

/-!
# ARMv8 subset simulator (`TP1-ARM/src/sim.c`): shallow embedding and properties

The C file keeps its machine in globals (`CURRENT_STATE`, `NEXT_STATE`, `RUN_BIT`
and the host memory); here they are the fields of `Machine`, and every C function
is a function `Machine → … → Machine`.

Machine integers are natural numbers holding the bit pattern:
* `uint32_t` values are `< 2^32`, `uint64_t` / `int64_t` values are `< 2^64`;
* a signed operation is done on the signed reading (`toInt32`, `toInt64`) and the
  result is stored back as a pattern with `wrap64` or an explicit `% 2 ^ 32`
  (wrap-around modulo a power of two, which is what the compiled simulator does).
-/

namespace Sim

/-! ## Machine integers -/

/-- Signed reading of a 32-bit pattern (`(int32_t)x`). -/
def toInt32 (x : Nat) : Int :=
  if x % 2 ^ 32 < 2 ^ 31 then ((x % 2 ^ 32 : Nat) : Int) else ((x % 2 ^ 32 : Nat) : Int) - 2 ^ 32

/-- Signed reading of a 64-bit pattern (`(int64_t)x`). -/
def toInt64 (x : Nat) : Int :=
  if x % 2 ^ 64 < 2 ^ 63 then ((x % 2 ^ 64 : Nat) : Int) else ((x % 2 ^ 64 : Nat) : Int) - 2 ^ 64

/-- The 64-bit pattern of an integer (conversion to `int64_t` / `uint64_t`). -/
def wrap64 (i : Int) : Nat := (i % 2 ^ 64).toNat

/-! ## Constants of `sim.c` -/

abbrev R_TYPE_MASK : Nat := 0x7FE0FC00
abbrev I_TYPE_MASK : Nat := 0x7FC00000
abbrev D_TYPE_MASK : Nat := 0xFFC00000
abbrev B_TYPE_MASK : Nat := 0xFC000000
abbrev CB_TYPE_MASK : Nat := 0xFE000000

abbrev ADDS_REG : Nat := 0x2B200000
abbrev SUBS_REG : Nat := 0x6B200000
abbrev ANDS_REG : Nat := 0x6A000000
abbrev EOR_REG : Nat := 0x4A000000
abbrev ORR_REG : Nat := 0x2A000000
abbrev MUL : Nat := 0x1B007C00
abbrev LSL_REG : Nat := 0x1AC02000
abbrev LSR_REG : Nat := 0x1AC02400
abbrev BR : Nat := 0xD61F0000

abbrev ADDS_IMM : Nat := 0x31000000
abbrev SUBS_IMM : Nat := 0x71000000
abbrev ADD_IMM : Nat := 0x11000000
abbrev MOVZ : Nat := 0x52800000
abbrev MOVK : Nat := 0x72800000
abbrev CMP_IMM : Nat := 0x7100001F

abbrev LDUR : Nat := 0xF8400000
abbrev LDURB : Nat := 0x38400000
abbrev LDURH : Nat := 0x78400000
abbrev STUR : Nat := 0xF8000000
abbrev STURB : Nat := 0x38000000
abbrev STURH : Nat := 0x78000000

abbrev B : Nat := 0x14000000
abbrev CBZ : Nat := 0xB4000000
abbrev CBNZ : Nat := 0xB5000000

abbrev B_COND : Nat := 0x54000000
abbrev COND_EQ : Nat := 0x0
abbrev COND_NE : Nat := 0x1
abbrev COND_LT : Nat := 0xB
abbrev COND_GT : Nat := 0xC
abbrev COND_LE : Nat := 0xD
abbrev COND_GE : Nat := 0xA

abbrev HLT : Nat := 0xD4400000
abbrev X31 : Nat := 31

/-! ## State -/

/-- Modelled from the spec: the `CPU_State` record of `shell.h` (not under `src/`),
with the fields `sim.c` uses: `PC` (64-bit unsigned), `REGS[0..31]` (64-bit),
`FLAG_N`, `FLAG_Z` (0/1 integers). Registers are indexed by the 5-bit fields of
the instruction word, so only indices `0..31` are ever touched. -/
structure CPU_State where
  PC : Nat
  REGS : Nat → Nat
  FLAG_N : Nat
  FLAG_Z : Nat

/-- Modelled from the spec: the host memory behind `mem_read_32` / `mem_write_32`
(`shell.c` is not under `src/`): a byte-addressable address space, one byte per address.
A 32-bit access at `addr` covers the four bytes `addr .. addr + 3`, least significant
byte first (little-endian words); the host does not realign, so accesses at addresses
less than 4 apart overlap. -/
structure Memory where
  byte : Nat → Nat

/-- Modelled from the spec: `read32(addr) -> u32`, the four bytes at
`addr .. addr + 3` assembled little-endian. -/
def mem_read_32 (mem : Memory) (address : Nat) : Nat :=
  mem.byte address % 256 + mem.byte (address + 1) % 256 * 2 ^ 8 +
    mem.byte (address + 2) % 256 * 2 ^ 16 + mem.byte (address + 3) % 256 * 2 ^ 24

/-- Modelled from the spec: `write32(addr, u32)`; the four bytes at `addr .. addr + 3`
receive the bytes of `value`, least significant first; no other byte changes. -/
def mem_write_32 (mem : Memory) (address value : Nat) : Memory :=
  ⟨fun x =>
    if x = address then value % 256
    else if x = address + 1 then value / 2 ^ 8 % 256
    else if x = address + 2 then value / 2 ^ 16 % 256
    else if x = address + 3 then value / 2 ^ 24 % 256
    else mem.byte x⟩

/-- The globals `sim.c` works on. `RUN_BIT = 0` is "run is false". -/
structure Machine where
  CURRENT_STATE : CPU_State
  NEXT_STATE : CPU_State
  RUN_BIT : Nat
  MEM : Memory

/-- The assignment `NEXT_STATE.REGS[rd] = v`. -/
def setNextReg (m : Machine) (rd v : Nat) : Machine :=
  { m with NEXT_STATE := { m.NEXT_STATE with REGS := Function.update m.NEXT_STATE.REGS rd v } }

/-- The assignment `NEXT_STATE.PC = v`. -/
def setNextPC (m : Machine) (v : Nat) : Machine :=
  { m with NEXT_STATE := { m.NEXT_STATE with PC := v } }

/-- The guarded write `if (rd != X31) NEXT_STATE.REGS[rd] = v;`. -/
def writeRd (m : Machine) (rd v : Nat) : Machine :=
  if rd ≠ X31 then setNextReg m rd v else m

/-! ## The functions of `sim.c` -/

/-- Function `update_flags(int64_t result)`: `FLAG_Z = (result == 0)`,
`FLAG_N = ((result >> 63) & 0x1)` with `>>` the arithmetic shift of a signed value. -/
def update_flags (m : Machine) (result : Nat) : Machine :=
  { m with NEXT_STATE :=
      { m.NEXT_STATE with
        FLAG_Z := if toInt64 result = 0 then 1 else 0
        FLAG_N := wrap64 (toInt64 result >>> (63 : Nat)) &&& 0x1 } }

/-- Function `check_condition(int cond)`: reads the flags of `CURRENT_STATE`. -/
def check_condition (m : Machine) (cond : Nat) : Bool :=
  if cond = COND_EQ then decide (m.CURRENT_STATE.FLAG_Z = 1)
  else if cond = COND_NE then decide (m.CURRENT_STATE.FLAG_Z = 0)
  else if cond = COND_LT then decide (m.CURRENT_STATE.FLAG_N = 1)
  else if cond = COND_GT then
    decide (m.CURRENT_STATE.FLAG_Z = 0) && decide (m.CURRENT_STATE.FLAG_N = 0)
  else if cond = COND_LE then
    decide (m.CURRENT_STATE.FLAG_Z = 1) || decide (m.CURRENT_STATE.FLAG_N = 1)
  else if cond = COND_GE then decide (m.CURRENT_STATE.FLAG_N = 0)
  else false

/-- Function `decode_r_type`: register-register arithmetic, logic, multiply and shifts. -/
def decode_r_type (m : Machine) (instruction : Nat) : Machine :=
  let rd := (instruction >>> 0) &&& 0x1F
  let rn := (instruction >>> 5) &&& 0x1F
  let rm := (instruction >>> 16) &&& 0x1F
  let op1 := m.CURRENT_STATE.REGS rn
  let op2 := m.CURRENT_STATE.REGS rm
  if instruction &&& R_TYPE_MASK = ADDS_REG then
    let result := wrap64 (toInt64 op1 + toInt64 op2)
    update_flags (writeRd m rd result) result
  else if instruction &&& R_TYPE_MASK = SUBS_REG then
    let result := wrap64 (toInt64 op1 - toInt64 op2)
    update_flags (writeRd m rd result) result
  else if instruction &&& 0x7FE0FC00 = ANDS_REG then
    let result := (op1 &&& op2) % 2 ^ 64
    update_flags (writeRd m rd result) result
  else if instruction &&& 0x7FE0FC00 = EOR_REG then
    writeRd m rd ((op1 ^^^ op2) % 2 ^ 64)
  else if instruction &&& 0x7FE0FC00 = ORR_REG then
    writeRd m rd ((op1 ||| op2) % 2 ^ 64)
  else if instruction &&& 0x1F000000 = 0x1B000000 ∧ instruction &&& 0x000003FF = 0x0000007C then
    writeRd m rd (wrap64 (toInt64 op1 * toInt64 op2))
  else if instruction &&& 0xFFE0FC00 = LSL_REG then
    let shift := op2 &&& 0x3F
    writeRd m rd ((op1 <<< shift) % 2 ^ 64)
  else if instruction &&& 0xFFE0FC00 = LSR_REG then
    let shift := op2 &&& 0x3F
    writeRd m rd ((op1 % 2 ^ 64) >>> shift)
  else m

/-- Function `decode_i_type`: register-immediate arithmetic and MOVZ. -/
def decode_i_type (m : Machine) (instruction : Nat) : Machine :=
  let rd := (instruction >>> 0) &&& 0x1F
  let rn := (instruction >>> 5) &&& 0x1F
  let imm12 := (instruction >>> 10) &&& 0xFFF
  let shift := (instruction >>> 22) &&& 0x3
  let op1 := m.CURRENT_STATE.REGS rn
  let imm : Nat :=
    if shift = 0 then imm12
    else if shift = 1 then imm12 <<< 12
    else imm12
  if instruction &&& I_TYPE_MASK = ADDS_IMM then
    let result := wrap64 (toInt64 op1 + (imm : Int))
    update_flags (writeRd m rd result) result
  else if instruction &&& I_TYPE_MASK = SUBS_IMM then
    let result := wrap64 (toInt64 op1 - (imm : Int))
    update_flags (writeRd m rd result) result
  else if instruction &&& I_TYPE_MASK = ADD_IMM then
    writeRd m rd (wrap64 (toInt64 op1 + (imm : Int)))
  else if instruction &&& I_TYPE_MASK = MOVZ then
    writeRd m rd imm12
  else if instruction &&& I_TYPE_MASK = CMP_IMM then
    let result := wrap64 (toInt64 op1 - (imm : Int))
    update_flags m result
  else m

/-- Function `decode_d_type`: loads and stores; `offset` is the unsigned 9-bit field. -/
def decode_d_type (m : Machine) (instruction : Nat) : Machine :=
  let rt := (instruction >>> 0) &&& 0x1F
  let rn := (instruction >>> 5) &&& 0x1F
  let offset := (instruction >>> 12) &&& 0x1FF
  let addr := wrap64 (toInt64 (m.CURRENT_STATE.REGS rn) + (offset : Int))
  if instruction &&& D_TYPE_MASK = LDUR then
    writeRd m rt (wrap64 (toInt32 (mem_read_32 m.MEM addr)))
  else if instruction &&& D_TYPE_MASK = LDURB then
    writeRd m rt (mem_read_32 m.MEM addr &&& 0xFF)
  else if instruction &&& D_TYPE_MASK = LDURH then
    writeRd m rt (mem_read_32 m.MEM addr &&& 0xFFFF)
  else if instruction &&& D_TYPE_MASK = STUR then
    { m with MEM := mem_write_32 m.MEM addr (m.CURRENT_STATE.REGS rt % 2 ^ 32) }
  else if instruction &&& D_TYPE_MASK = STURB then
    let current := mem_read_32 m.MEM addr
    let value := ((current &&& 0xFFFFFF00) ||| (m.CURRENT_STATE.REGS rt &&& 0xFF)) % 2 ^ 32
    { m with MEM := mem_write_32 m.MEM addr value }
  else if instruction &&& D_TYPE_MASK = STURH then
    let current := mem_read_32 m.MEM addr
    let value := ((current &&& 0xFFFF0000) ||| (m.CURRENT_STATE.REGS rt &&& 0xFFFF)) % 2 ^ 32
    { m with MEM := mem_write_32 m.MEM addr value }
  else m

/-- Function `decode_b_type`: `offset = ((imm26 << 6) >> 4)` on `int32_t` (the left shift
wraps in 32 bits, the right shift is arithmetic), then
`NEXT_STATE.PC = CURRENT_STATE.PC + offset` in 64 bits. -/
def decode_b_type (m : Machine) (instruction : Nat) : Machine :=
  let imm26 := instruction &&& 0x3FFFFFF
  let offset : Int := toInt32 ((imm26 <<< 6) % 2 ^ 32) >>> (4 : Nat)
  setNextPC m (wrap64 ((m.CURRENT_STATE.PC : Int) + offset))

/-- Function `decode_cb_type`: CBZ / CBNZ, `offset = ((imm19 << 13) >> 11)` on `int32_t`. -/
def decode_cb_type (m : Machine) (instruction : Nat) : Machine :=
  let rt := (instruction >>> 0) &&& 0x1F
  let imm19 := (instruction >>> 5) &&& 0x7FFFF
  let offset : Int := toInt32 ((imm19 <<< 13) % 2 ^ 32) >>> (11 : Nat)
  if instruction &&& CB_TYPE_MASK = CBZ then
    if m.CURRENT_STATE.REGS rt = 0 then
      setNextPC m (wrap64 ((m.CURRENT_STATE.PC : Int) + offset))
    else m
  else if instruction &&& CB_TYPE_MASK = CBNZ then
    if m.CURRENT_STATE.REGS rt ≠ 0 then
      setNextPC m (wrap64 ((m.CURRENT_STATE.PC : Int) + offset))
    else m
  else m

/-- Function `decode_b_cond`: B.cond, same offset computation as CBZ. -/
def decode_b_cond (m : Machine) (instruction : Nat) : Machine :=
  let cond := instruction &&& 0xF
  let imm19 := (instruction >>> 5) &&& 0x7FFFF
  let offset : Int := toInt32 ((imm19 <<< 13) % 2 ^ 32) >>> (11 : Nat)
  if check_condition m cond then
    setNextPC m (wrap64 ((m.CURRENT_STATE.PC : Int) + offset))
  else m

/-- Function `process_instruction`: fetch at `CURRENT_STATE.PC`, stage `NEXT_STATE`,
HLT test (returns at once), the classifier `if` chain, then `NEXT_STATE.REGS[X31] = 0`. -/
def process_instruction (m : Machine) : Machine :=
  let instruction := mem_read_32 m.MEM m.CURRENT_STATE.PC
  let m1 : Machine := { m with NEXT_STATE := m.CURRENT_STATE }
  let m2 : Machine := setNextPC m1 ((m1.CURRENT_STATE.PC + 4) % 2 ^ 64)
  if instruction &&& 0xFFFFFFE0 = HLT then
    { m2 with RUN_BIT := 0 }
  else
    let m3 : Machine :=
      if instruction &&& 0x1F000000 = 0x1B000000 ∧ instruction &&& 0x000003FF = 0x0000007C then
        decode_r_type m2 instruction
      else if instruction &&& B_TYPE_MASK = B then
        decode_b_type m2 instruction
      else if instruction &&& CB_TYPE_MASK = CBZ ∨ instruction &&& CB_TYPE_MASK = CBNZ then
        decode_cb_type m2 instruction
      else if instruction &&& 0xFE000000 = B_COND then
        decode_b_cond m2 instruction
      else if instruction &&& D_TYPE_MASK = LDUR ∨ instruction &&& D_TYPE_MASK = LDURB ∨
          instruction &&& D_TYPE_MASK = LDURH ∨ instruction &&& D_TYPE_MASK = STUR ∨
          instruction &&& D_TYPE_MASK = STURB ∨ instruction &&& D_TYPE_MASK = STURH then
        decode_d_type m2 instruction
      else if instruction &&& 0xFFE0FC00 = BR then
        let rn := (instruction >>> 5) &&& 0x1F
        setNextPC m2 (m2.CURRENT_STATE.REGS rn % 2 ^ 64)
      else if instruction &&& I_TYPE_MASK = ADDS_IMM ∨ instruction &&& I_TYPE_MASK = SUBS_IMM ∨
          instruction &&& I_TYPE_MASK = ADD_IMM ∨ instruction &&& I_TYPE_MASK = MOVZ ∨
          instruction &&& I_TYPE_MASK = MOVK ∨ instruction &&& I_TYPE_MASK = CMP_IMM then
        decode_i_type m2 instruction
      else
        decode_r_type m2 instruction
    setNextReg m3 X31 0

/-- Commit by the host after a step (`CURRENT_STATE = NEXT_STATE` in the cycle of the shell). -/
def commit (m : Machine) : Machine :=
  { m with CURRENT_STATE := m.NEXT_STATE }

/-! ## Notions used to state the properties -/

/-- Sign extension of the `bits`-bit field value `x` (from bit `bits - 1`), as an integer. -/
def signExtend (bits x : Nat) : Int :=
  if x % 2 ^ bits < 2 ^ (bits - 1) then ((x % 2 ^ bits : Nat) : Int)
  else ((x % 2 ^ bits : Nat) : Int) - 2 ^ bits

/-- The condition table as the specification words it: EQ (0x0) `Z = 1`, NE (0x1) `Z = 0`,
GE (0xA) `N = 0`, LT (0xB) `N = 1`, GT (0xC) `Z = 0 ∧ N = 0`, LE (0xD) `Z = 1 ∨ N = 1`,
every other code false. -/
def condTest (cond z n : Nat) : Prop :=
  (cond = 0x0 ∧ z = 1) ∨ (cond = 0x1 ∧ z = 0) ∨ (cond = 0xA ∧ n = 0) ∨ (cond = 0xB ∧ n = 1) ∨
    (cond = 0xC ∧ z = 0 ∧ n = 0) ∨ (cond = 0xD ∧ (z = 1 ∨ n = 1))

instance (cond z n : Nat) : Decidable (condTest cond z n) := by
  unfold condTest; infer_instance

/-- The flags of `nx` reflect the 64-bit result pattern `r`: `FLAG_Z = 1` iff `r = 0`,
`FLAG_N = 1` iff `r` is negative as a signed 64-bit value, and both flags are 0 or 1. -/
def flagsReflect (nx : CPU_State) (r : Nat) : Prop :=
  (nx.FLAG_Z = 1 ↔ r = 0) ∧ (nx.FLAG_N = 1 ↔ toInt64 r < 0) ∧
    (nx.FLAG_Z = 0 ∨ nx.FLAG_Z = 1) ∧ (nx.FLAG_N = 0 ∨ nx.FLAG_N = 1)

/-- The pattern `r` is the 64-bit wrapped result of the flag-setting operation encoded by
`I` on the registers of `cur`: register ADDS / SUBS / ANDS (`a + b`, `a - b`, `a & b`) or
immediate ADDS / SUBS-CMP (`a + imm12`, `a - imm12`), with `a = REGS[I[9:5]]`,
`b = REGS[I[20:16]]`, `imm12 = I[21:10]` (the shift field `I[23:22]` is zero under the
immediate masks). -/
def isFlagResult (cur : CPU_State) (I r : Nat) : Prop :=
  (I &&& 0x7FE0FC00 = 0x2B200000 ∧
      r = (cur.REGS ((I >>> 5) &&& 0x1F) + cur.REGS ((I >>> 16) &&& 0x1F)) % 2 ^ 64) ∨
  (I &&& 0x7FE0FC00 = 0x6B200000 ∧
      r = wrap64 ((cur.REGS ((I >>> 5) &&& 0x1F) : Int) - (cur.REGS ((I >>> 16) &&& 0x1F) : Int))) ∨
  (I &&& 0x7FE0FC00 = 0x6A000000 ∧
      r = (cur.REGS ((I >>> 5) &&& 0x1F) &&& cur.REGS ((I >>> 16) &&& 0x1F)) % 2 ^ 64) ∨
  (I &&& 0x7FC00000 = 0x31000000 ∧
      r = (cur.REGS ((I >>> 5) &&& 0x1F) + ((I >>> 10) &&& 0xFFF)) % 2 ^ 64) ∨
  (I &&& 0x7FC00000 = 0x71000000 ∧
      r = wrap64 ((cur.REGS ((I >>> 5) &&& 0x1F) : Int) - (((I >>> 10) &&& 0xFFF : Nat) : Int)))

/-- Effective address of a D-form word: `REGS[I[9:5]] + I[20:12]` modulo `2^64`, the
9-bit field taken as an unsigned offset. -/
def dAddr (cur : CPU_State) (I : Nat) : Nat :=
  (cur.REGS ((I >>> 5) &&& 0x1F) + ((I >>> 12) &&& 0x1FF)) % 2 ^ 64

/-- The word the next step fetches: `mem_read_32(CURRENT_STATE.PC)`. -/
def fetched (m : Machine) : Nat := mem_read_32 m.MEM m.CURRENT_STATE.PC

/-- One cycle of the host: `process_instruction()` followed by
`CURRENT_STATE = NEXT_STATE`. -/
def cycle (m : Machine) : Machine := commit (process_instruction m)

/-- The word `I` passes the I-form test `(I & 0x7FC00000) == opcode` and carries the
fields `rd = I[4:0]`, `rn = I[9:5]`, `imm12 = I[21:10]`. -/
def isIForm (I opcode rd rn imm12 : Nat) : Prop :=
  I &&& 0x7FC00000 = opcode ∧ I &&& 0x1F = rd ∧ (I >>> 5) &&& 0x1F = rn ∧
    (I >>> 10) &&& 0xFFF = imm12

/-- The word `I` passes the R-form test `(I & mask) == opcode` and carries the fields
`rd = I[4:0]`, `rn = I[9:5]`, `rm = I[20:16]`. -/
def isRForm (I mask opcode rd rn rm : Nat) : Prop :=
  I &&& mask = opcode ∧ I &&& 0x1F = rd ∧ (I >>> 5) &&& 0x1F = rn ∧ (I >>> 16) &&& 0x1F = rm

/-- The word `I` passes the D-form test `(I & 0xFFC00000) == opcode` and carries the fields
`rt = I[4:0]`, `rn = I[9:5]`, `imm9 = I[20:12]`. -/
def isDForm (I opcode rt rn imm9 : Nat) : Prop :=
  I &&& 0xFFC00000 = opcode ∧ I &&& 0x1F = rt ∧ (I >>> 5) &&& 0x1F = rn ∧
    (I >>> 12) &&& 0x1FF = imm9

instance (I opcode rd rn imm12 : Nat) : Decidable (isIForm I opcode rd rn imm12) := by
  unfold isIForm; infer_instance

instance (I mask opcode rd rn rm : Nat) : Decidable (isRForm I mask opcode rd rn rm) := by
  unfold isRForm; infer_instance

instance (I opcode rt rn imm9 : Nat) : Decidable (isDForm I opcode rt rn imm9) := by
  unfold isDForm; infer_instance

/-- The final state `fin` holds the value `v` in register `e`, with `FLAG_Z = 1` iff
`v = 0` and `FLAG_N` equal to bit 63 of `v`. -/
def restores (fin : CPU_State) (e v : Nat) : Prop :=
  fin.REGS e = v ∧ (fin.FLAG_Z = 1 ↔ v = 0) ∧ fin.FLAG_N = v / 2 ^ 63

/-! ## Fixtures -/

/-- All registers and flags zero, `PC = pc`. -/
def zeroState (pc : Nat) : CPU_State := ⟨pc, fun _ => 0, 0, 0⟩

/-- A memory holding the word `w` at address `a` and zero bytes elsewhere. -/
def memWith (a w : Nat) : Memory := mem_write_32 ⟨fun _ => 0⟩ a w

/-- A memory holding the listed `(address, word)` pairs (the words written into a memory
of zero bytes, an earlier pair of the list taking precedence where words overlap). -/
def memOf (l : List (Nat × Nat)) : Memory :=
  l.foldr (fun aw mem => mem_write_32 mem aw.1 aw.2) ⟨fun _ => 0⟩

/-- A machine about to run from `cur` with memory `mem` (run flag set). -/
def boot (cur : CPU_State) (mem : Memory) : Machine := ⟨cur, cur, 1, mem⟩

/-- A register file holding the listed `(index, value)` pairs and zero elsewhere. -/
def regsOf (l : List (Nat × Nat)) : Nat → Nat := fun i => (l.lookup i).getD 0

/-! ## Bit-mask lemmas

Two masked tests on the same word are compatible only if their values agree on the
common bits; this settles which branch of the classifier a word takes. -/

theorem mask_test_false {I m1 v1 : Nat} (h : I &&& m1 = v1) (m2 v2 : Nat)
    (hne : v1 &&& m2 ≠ v2 &&& m1) : (I &&& m2 = v2) = False := by
  apply eq_false
  intro h2
  apply hne
  rw [← h, ← h2, Nat.and_assoc, Nat.and_assoc, Nat.and_comm m1 m2]

theorem mask_narrow {I m1 v1 : Nat} (h : I &&& m1 = v1) (m2 : Nat)
    (hm : m1 &&& m2 = m2) : I &&& m2 = v1 &&& m2 := by
  rw [← h, Nat.and_assoc, hm]

theorem shiftRight_and_eq (I k f : Nat) : (I >>> k) &&& f = (I &&& (f <<< k)) >>> k := by
  apply Nat.eq_of_testBit_eq
  intro i
  simp [Nat.testBit_shiftRight, Nat.testBit_and, Nat.testBit_shiftLeft]

/-- A field `(I >> k) & f` lying inside a tested mask is fixed by the tested value. -/
theorem field_of_mask {I m1 v1 : Nat} (h : I &&& m1 = v1) (k f : Nat)
    (hm : m1 &&& (f <<< k) = f <<< k) : (I >>> k) &&& f = (v1 &&& (f <<< k)) >>> k := by
  rw [shiftRight_and_eq, mask_narrow h _ hm]

theorem mask_ne {I m1 v1 : Nat} (h : I &&& m1 = v1) (m2 v2 : Nat)
    (hne : v1 &&& m2 ≠ v2 &&& m1) : I &&& m2 ≠ v2 :=
  fun h2 => cast (mask_test_false h m2 v2 hne) h2

/-! ## Frame lemmas: what the executors never touch -/

@[simp] theorem writeRd_RUN_BIT (m : Machine) (rd v : Nat) : (writeRd m rd v).RUN_BIT = m.RUN_BIT := by
  unfold writeRd setNextReg; split <;> rfl

@[simp] theorem writeRd_MEM (m : Machine) (rd v : Nat) : (writeRd m rd v).MEM = m.MEM := by
  unfold writeRd setNextReg; split <;> rfl

@[simp] theorem writeRd_CURRENT_STATE (m : Machine) (rd v : Nat) :
    (writeRd m rd v).CURRENT_STATE = m.CURRENT_STATE := by
  unfold writeRd setNextReg; split <;> rfl

@[simp] theorem writeRd_PC (m : Machine) (rd v : Nat) :
    (writeRd m rd v).NEXT_STATE.PC = m.NEXT_STATE.PC := by
  unfold writeRd setNextReg; split <;> rfl

@[simp] theorem writeRd_FLAG_Z (m : Machine) (rd v : Nat) :
    (writeRd m rd v).NEXT_STATE.FLAG_Z = m.NEXT_STATE.FLAG_Z := by
  unfold writeRd setNextReg; split <;> rfl

@[simp] theorem writeRd_FLAG_N (m : Machine) (rd v : Nat) :
    (writeRd m rd v).NEXT_STATE.FLAG_N = m.NEXT_STATE.FLAG_N := by
  unfold writeRd setNextReg; split <;> rfl

@[simp] theorem setNextPC_CURRENT_STATE (m : Machine) (v : Nat) :
    (setNextPC m v).CURRENT_STATE = m.CURRENT_STATE := rfl

@[simp] theorem setNextPC_MEM (m : Machine) (v : Nat) : (setNextPC m v).MEM = m.MEM := rfl

@[simp] theorem setNextPC_RUN_BIT (m : Machine) (v : Nat) : (setNextPC m v).RUN_BIT = m.RUN_BIT := rfl

@[simp] theorem setNextPC_PC (m : Machine) (v : Nat) : (setNextPC m v).NEXT_STATE.PC = v := rfl

@[simp] theorem setNextPC_REGS (m : Machine) (v : Nat) :
    (setNextPC m v).NEXT_STATE.REGS = m.NEXT_STATE.REGS := rfl

@[simp] theorem setNextPC_FLAG_Z (m : Machine) (v : Nat) :
    (setNextPC m v).NEXT_STATE.FLAG_Z = m.NEXT_STATE.FLAG_Z := rfl

@[simp] theorem setNextPC_FLAG_N (m : Machine) (v : Nat) :
    (setNextPC m v).NEXT_STATE.FLAG_N = m.NEXT_STATE.FLAG_N := rfl

theorem decode_r_type_RUN_BIT (m : Machine) (I : Nat) : (decode_r_type m I).RUN_BIT = m.RUN_BIT := by
  unfold decode_r_type
  simp only []
  split_ifs <;> simp [update_flags]

theorem decode_i_type_RUN_BIT (m : Machine) (I : Nat) : (decode_i_type m I).RUN_BIT = m.RUN_BIT := by
  unfold decode_i_type
  simp only []
  split_ifs <;> simp [update_flags]

theorem decode_d_type_RUN_BIT (m : Machine) (I : Nat) : (decode_d_type m I).RUN_BIT = m.RUN_BIT := by
  unfold decode_d_type
  simp only []
  split_ifs <;> simp

theorem decode_b_type_RUN_BIT (m : Machine) (I : Nat) : (decode_b_type m I).RUN_BIT = m.RUN_BIT := by
  simp [decode_b_type, setNextPC]

theorem decode_cb_type_RUN_BIT (m : Machine) (I : Nat) : (decode_cb_type m I).RUN_BIT = m.RUN_BIT := by
  unfold decode_cb_type
  simp only []
  split_ifs <;> simp [setNextPC]

theorem decode_b_cond_RUN_BIT (m : Machine) (I : Nat) : (decode_b_cond m I).RUN_BIT = m.RUN_BIT := by
  unfold decode_b_cond
  simp only []
  split_ifs <;> simp [setNextPC]

/-! ## The step driver: HLT and the zero register -/

/-- Every step that is not a HLT ends with `NEXT_STATE.REGS[31] = 0`. -/
theorem x31_zero_of_not_hlt (m : Machine)
    (h : mem_read_32 m.MEM m.CURRENT_STATE.PC &&& 0xFFFFFFE0 ≠ 0xD4400000) :
    (process_instruction m).NEXT_STATE.REGS 31 = 0 := by
  simp [process_instruction, h, setNextReg]

/-- C1 (fails on the HLT path): with `REGS[31] = 5` in the current state and the word
`0xD4400000` at the program counter, `process_instruction` returns before the line
`NEXT_STATE.REGS[X31] = 0`, and the staged state keeps `REGS[31] = 5`. -/
theorem c1_hlt_skips_xzr_reset :
    (process_instruction
      (boot ⟨0x400000, regsOf [(31, 5)], 0, 0⟩ (memWith 0x400000 0xD4400000))).NEXT_STATE.REGS 31
      = 5 := by
  decide

/-- C2: when the fetched word satisfies `(I & 0xFFFFFFE0) == 0xD4400000` the step clears
`RUN_BIT`, stages `PC + 4` (in 64 bits), leaves every register and both flags of
`NEXT_STATE` equal to those of `CURRENT_STATE` and leaves memory alone; for any other
fetched word `RUN_BIT` is left as it was. -/
theorem c2_hlt (m : Machine) :
    (mem_read_32 m.MEM m.CURRENT_STATE.PC &&& 0xFFFFFFE0 = 0xD4400000 →
      (process_instruction m).RUN_BIT = 0 ∧
      (process_instruction m).NEXT_STATE.PC = (m.CURRENT_STATE.PC + 4) % 2 ^ 64 ∧
      (∀ i, (process_instruction m).NEXT_STATE.REGS i = m.CURRENT_STATE.REGS i) ∧
      (process_instruction m).NEXT_STATE.FLAG_Z = m.CURRENT_STATE.FLAG_Z ∧
      (process_instruction m).NEXT_STATE.FLAG_N = m.CURRENT_STATE.FLAG_N ∧
      (process_instruction m).MEM = m.MEM) ∧
    (mem_read_32 m.MEM m.CURRENT_STATE.PC &&& 0xFFFFFFE0 ≠ 0xD4400000 →
      (process_instruction m).RUN_BIT = m.RUN_BIT) := by
  constructor
  · intro h
    simp [process_instruction, h, setNextPC]
  · intro h
    simp only [process_instruction, HLT, h, if_false, setNextReg]
    split_ifs <;>
      simp [decode_r_type_RUN_BIT, decode_i_type_RUN_BIT, decode_d_type_RUN_BIT,
        decode_b_type_RUN_BIT, decode_cb_type_RUN_BIT, decode_b_cond_RUN_BIT, setNextPC]

/-- Witness for C2: the scenario word `0xD4400000` at `PC = 0x400000` (halts, `PC` staged
at `0x400004`), and the non-HLT word `0xD2800020`, after which `RUN_BIT` is still 1. -/
theorem c2_hlt_witness :
    ((process_instruction (boot (zeroState 0x400000) (memWith 0x400000 0xD4400000))).RUN_BIT = 0 ∧
      (process_instruction (boot (zeroState 0x400000) (memWith 0x400000 0xD4400000))).NEXT_STATE.PC
        = 0x400004) ∧
    (process_instruction (boot (zeroState 0x400000) (memWith 0x400000 0xD2800020))).RUN_BIT = 1 :=
  ⟨⟨((c2_hlt (boot (zeroState 0x400000) (memWith 0x400000 0xD4400000))).1 (by decide)).1,
    ((c2_hlt (boot (zeroState 0x400000) (memWith 0x400000 0xD4400000))).1 (by decide)).2.1⟩,
   (c2_hlt (boot (zeroState 0x400000) (memWith 0x400000 0xD2800020))).2 (by decide)⟩

/-! ## Flags -/

theorem wrap64_lt (i : Int) : wrap64 i < 2 ^ 64 := by
  unfold wrap64; omega

theorem wrap64_toInt64_add (a b : Nat) : wrap64 (toInt64 a + toInt64 b) = (a + b) % 2 ^ 64 := by
  unfold wrap64 toInt64; split_ifs <;> omega

theorem wrap64_toInt64_sub (a b : Nat) :
    wrap64 (toInt64 a - toInt64 b) = wrap64 ((a : Int) - (b : Int)) := by
  unfold wrap64 toInt64; split_ifs <;> omega

theorem wrap64_toInt64_add_nat (a k : Nat) : wrap64 (toInt64 a + (k : Int)) = (a + k) % 2 ^ 64 := by
  unfold wrap64 toInt64; split_ifs <;> omega

theorem wrap64_toInt64_sub_nat (a k : Nat) :
    wrap64 (toInt64 a - (k : Int)) = wrap64 ((a : Int) - (k : Int)) := by
  unfold wrap64 toInt64; split_ifs <;> omega

/-- The function `update_flags` sets `FLAG_Z`, `FLAG_N` from the pattern it is given. -/
theorem update_flags_reflect (m : Machine) (r : Nat) (hr : r < 2 ^ 64) :
    flagsReflect (update_flags m r).NEXT_STATE r := by
  have hmod : r % 2 ^ 64 = r := Nat.mod_eq_of_lt hr
  unfold flagsReflect update_flags
  simp only [Int.shiftRight_eq_div_pow]
  by_cases hneg : r < 2 ^ 63
  · have h1 : toInt64 r = (r : Int) := by unfold toInt64; rw [hmod, if_pos hneg]
    have h2 : wrap64 (toInt64 r / ((2 ^ 63 : Nat) : Int)) = 0 := by
      rw [h1]; unfold wrap64; omega
    rw [h2, h1]
    refine ⟨?_, ?_, ?_, ?_⟩
    · constructor
      · intro h; split_ifs at h with h0; omega
      · intro h; subst h; simp
    · constructor
      · intro h; exact absurd h (by decide)
      · intro h; omega
    · split_ifs <;> simp
    · left; rfl
  · have h1 : toInt64 r = (r : Int) - 2 ^ 64 := by unfold toInt64; rw [hmod, if_neg hneg]
    have h2 : wrap64 (toInt64 r / ((2 ^ 63 : Nat) : Int)) = 2 ^ 64 - 1 := by
      rw [h1]; unfold wrap64; omega
    rw [h2, h1]
    refine ⟨?_, ?_, ?_, ?_⟩
    · constructor
      · intro h; split_ifs at h with h0; omega
      · intro h; omega
    · constructor
      · intro _; omega
      · intro _; decide
    · split_ifs <;> simp
    · right; decide

theorem flagsReflect_setNextReg (m : Machine) (rd v r : Nat) :
    flagsReflect (setNextReg m rd v).NEXT_STATE r ↔ flagsReflect m.NEXT_STATE r := by
  simp [flagsReflect, setNextReg]

/-- Every flag-setting word reaches its executor and `update_flags` sees the result. -/
theorem flags_of_flag_setting (m : Machine) (r : Nat)
    (h : isFlagResult m.CURRENT_STATE (mem_read_32 m.MEM m.CURRENT_STATE.PC) r) :
    flagsReflect (process_instruction m).NEXT_STATE r := by
  rcases h with ⟨h, hr⟩ | ⟨h, hr⟩ | ⟨h, hr⟩ | ⟨h, hr⟩ | ⟨h, hr⟩
  · simp (disch := decide) only [process_instruction, mask_test_false h, h, false_and, or_self,
      if_false, if_true, decode_r_type, flagsReflect_setNextReg, setNextPC_CURRENT_STATE,
      wrap64_toInt64_add, ← hr]
    exact update_flags_reflect _ _ (by rw [hr]; omega)
  · simp (disch := decide) only [process_instruction, mask_test_false h, h, false_and, or_self,
      if_false, if_true, decode_r_type, flagsReflect_setNextReg, setNextPC_CURRENT_STATE,
      wrap64_toInt64_sub, ← hr]
    exact update_flags_reflect _ _ (by rw [hr]; exact wrap64_lt _)
  · simp (disch := decide) only [process_instruction, mask_test_false h, h, false_and, or_self,
      if_false, if_true, decode_r_type, flagsReflect_setNextReg, setNextPC_CURRENT_STATE, ← hr]
    exact update_flags_reflect _ _ (by rw [hr]; omega)
  · have hs : (mem_read_32 m.MEM m.CURRENT_STATE.PC >>> 22) &&& 0x3 = 0 := by
      rw [field_of_mask h 22 3 (by decide)]; decide
    simp (disch := decide) only [process_instruction, mask_test_false h, h, false_and, or_self,
      if_false, if_true, decode_i_type, flagsReflect_setNextReg, setNextPC_CURRENT_STATE, hs,
      wrap64_toInt64_add_nat, true_or, ← hr]
    exact update_flags_reflect _ _ (by rw [hr]; omega)
  · have hs : (mem_read_32 m.MEM m.CURRENT_STATE.PC >>> 22) &&& 0x3 = 0 := by
      rw [field_of_mask h 22 3 (by decide)]; decide
    simp (disch := decide) only [process_instruction, mask_test_false h, h, false_and, or_self,
      if_false, if_true, decode_i_type, flagsReflect_setNextReg, setNextPC_CURRENT_STATE, hs,
      wrap64_toInt64_sub_nat, true_or, or_true, ← hr]
    exact update_flags_reflect _ _ (by rw [hr]; exact wrap64_lt _)

/-- C3: for every flag-setting word (register ADDS / SUBS / ANDS, immediate ADDS /
SUBS-CMP) and every machine, with `r` the 64-bit wrapped result of the operation on the
current registers, the staged flags satisfy `FLAG_Z = 1 ↔ r = 0` and
`FLAG_N = 1 ↔ r < 0` (signed), both flags being 0 or 1; the destination field, 31
included, plays no part. In particular a result 0 stages `Z = 1, N = 0` and a result -1
stages `Z = 0, N = 1`. -/
theorem c3_flags (m : Machine) (r : Nat)
    (h : isFlagResult m.CURRENT_STATE (mem_read_32 m.MEM m.CURRENT_STATE.PC) r) :
    flagsReflect (process_instruction m).NEXT_STATE r ∧
      (r = 0 → (process_instruction m).NEXT_STATE.FLAG_Z = 1 ∧
        (process_instruction m).NEXT_STATE.FLAG_N = 0) ∧
      (toInt64 r = -1 → (process_instruction m).NEXT_STATE.FLAG_Z = 0 ∧
        (process_instruction m).NEXT_STATE.FLAG_N = 1) := by
  have core := flags_of_flag_setting m r h
  obtain ⟨hz, hn, hz01, hn01⟩ := core
  refine ⟨⟨hz, hn, hz01, hn01⟩, ?_, ?_⟩
  · intro h0
    refine ⟨hz.2 h0, ?_⟩
    rcases hn01 with h1 | h1
    · exact h1
    · have := hn.1 h1
      rw [h0] at this
      exact absurd this (by decide)
  · intro hm1
    have hneg : toInt64 r < 0 := by rw [hm1]; decide
    refine ⟨?_, hn.2 hneg⟩
    rcases hz01 with h1 | h1
    · exact h1
    · have := hz.1 h1
      rw [this] at hm1
      exact absurd hm1 (by decide)

/-- Witness for C3: `SUBS X12, X0, #1` (`0xF100040C`) with `X0 = 1` produces `r = 0`,
so `Z = 1`, `N = 0`. -/
theorem c3_flags_witness :
    isFlagResult (boot ⟨0x400004, regsOf [(0, 1)], 0, 0⟩ (memWith 0x400004 0xF100040C)).CURRENT_STATE
        (mem_read_32 (memWith 0x400004 0xF100040C) 0x400004) 0 ∧
      flagsReflect
        (process_instruction
          (boot ⟨0x400004, regsOf [(0, 1)], 0, 0⟩ (memWith 0x400004 0xF100040C))).NEXT_STATE 0 :=
  ⟨by unfold isFlagResult; decide,
   (c3_flags (boot ⟨0x400004, regsOf [(0, 1)], 0, 0⟩ (memWith 0x400004 0xF100040C)) 0
     (by unfold isFlagResult; decide)).1⟩

/-- The two boundary cases named with C3, evaluated: `SUBS X12, X0, #1` with `X0 = 1`
(result 0) stages `Z = 1, N = 0`; `CMP X1, #1` (`0xF100043F`) with `X1 = 0` (result -1)
stages `Z = 0, N = 1`, although its destination field is 31. -/
theorem subs_boundary_flags :
    ((process_instruction
        (boot ⟨0x400004, regsOf [(0, 1)], 0, 0⟩ (memWith 0x400004 0xF100040C))).NEXT_STATE.FLAG_Z = 1 ∧
      (process_instruction
        (boot ⟨0x400004, regsOf [(0, 1)], 0, 0⟩ (memWith 0x400004 0xF100040C))).NEXT_STATE.FLAG_N = 0) ∧
    ((process_instruction
        (boot (zeroState 0x400004) (memWith 0x400004 0xF100043F))).NEXT_STATE.FLAG_Z = 0 ∧
      (process_instruction
        (boot (zeroState 0x400004) (memWith 0x400004 0xF100043F))).NEXT_STATE.FLAG_N = 1) := by
  decide

/-! ## Branches -/

/-- The expression `((imm26 << 6) >> 4)` on `int32_t` is four times the sign-extended 26-bit field. -/
theorem b_offset_eq (x : Nat) :
    toInt32 ((x <<< 6) % 2 ^ 32) >>> (4 : Nat) = 4 * signExtend 26 x := by
  rw [Int.shiftRight_eq_div_pow, Nat.shiftLeft_eq]
  unfold toInt32 signExtend
  norm_num
  split_ifs <;> omega

/-- The expression `((imm19 << 13) >> 11)` on `int32_t` is four times the sign-extended 19-bit field. -/
theorem cb_offset_eq (x : Nat) :
    toInt32 ((x <<< 13) % 2 ^ 32) >>> (11 : Nat) = 4 * signExtend 19 x := by
  rw [Int.shiftRight_eq_div_pow, Nat.shiftLeft_eq]
  unfold toInt32 signExtend
  norm_num
  split_ifs <;> omega

/-- C4: for every fetched word with `(I & 0xFC000000) == 0x14000000` the staged program
counter is `PC + 4 * signext26(I[25:0])` modulo `2^64`; with `imm26 = 0x2000000` that is
`PC - 0x8000000` modulo `2^64`. -/
theorem c4_b (m : Machine)
    (h : mem_read_32 m.MEM m.CURRENT_STATE.PC &&& 0xFC000000 = 0x14000000) :
    (process_instruction m).NEXT_STATE.PC =
        wrap64 ((m.CURRENT_STATE.PC : Int) +
          (4 : Int) * signExtend 26 (mem_read_32 m.MEM m.CURRENT_STATE.PC &&& 0x3FFFFFF)) ∧
      (mem_read_32 m.MEM m.CURRENT_STATE.PC &&& 0x3FFFFFF = 0x2000000 →
        (process_instruction m).NEXT_STATE.PC = wrap64 ((m.CURRENT_STATE.PC : Int) - 0x8000000)) := by
  have hpc : (process_instruction m).NEXT_STATE.PC =
      wrap64 ((m.CURRENT_STATE.PC : Int) +
        (4 : Int) * signExtend 26 (mem_read_32 m.MEM m.CURRENT_STATE.PC &&& 0x3FFFFFF)) := by
    simp (disch := decide) only [process_instruction, mask_test_false h, h, false_and,
      if_false, if_true, decode_b_type, setNextReg, setNextPC, b_offset_eq]
  refine ⟨hpc, ?_⟩
  intro h26
  rw [hpc, h26]
  have : signExtend 26 0x2000000 = -0x2000000 := by decide
  rw [this, sub_eq_add_neg]
  norm_num

/-- Witness for C4: the scenario word `0x17FFFFFC` at `PC = 0x400010` stages `PC = 0x400000`. -/
theorem c4_b_witness :
    (process_instruction (boot (zeroState 0x400010) (memWith 0x400010 0x17FFFFFC))).NEXT_STATE.PC
      = 0x400000 :=
  (c4_b (boot (zeroState 0x400010) (memWith 0x400010 0x17FFFFFC)) (by decide)).1.trans (by decide)

/-- What `process_instruction` does with any word whose bits 31:25 are `1011010`
(`(I & 0xFE000000) == 0xB4000000`, the test written for CBZ): branch iff `REGS[rt] = 0`.
Bit 24, which tells CBNZ from CBZ, is outside `CB_TYPE_MASK`. -/
theorem step_cb (m : Machine)
    (h : mem_read_32 m.MEM m.CURRENT_STATE.PC &&& 0xFE000000 = 0xB4000000) :
    (m.CURRENT_STATE.REGS (mem_read_32 m.MEM m.CURRENT_STATE.PC &&& 0x1F) = 0 →
      (process_instruction m).NEXT_STATE.PC =
        wrap64 ((m.CURRENT_STATE.PC : Int) +
          (4 : Int) * signExtend 19 ((mem_read_32 m.MEM m.CURRENT_STATE.PC >>> 5) &&& 0x7FFFF))) ∧
    (m.CURRENT_STATE.REGS (mem_read_32 m.MEM m.CURRENT_STATE.PC &&& 0x1F) ≠ 0 →
      (process_instruction m).NEXT_STATE.PC = (m.CURRENT_STATE.PC + 4) % 2 ^ 64) := by
  constructor
  · intro h0
    simp (disch := decide) only [process_instruction, mask_test_false h, h, false_and, true_or,
      if_false, if_true, decode_cb_type, setNextReg, setNextPC, cb_offset_eq, Nat.shiftRight_zero,
      h0]
  · intro h0
    simp (disch := decide) only [process_instruction, mask_test_false h, h, false_and, true_or,
      if_false, if_true, decode_cb_type, setNextReg, setNextPC, cb_offset_eq, Nat.shiftRight_zero,
      h0]

/-- C5: for every fetched CBZ word (bits 31:24 equal `0xB4`), with `rt = I[4:0]` and
`imm19 = I[23:5]`: if `REGS[rt] = 0` the staged program counter is
`PC + 4 * signext19(imm19)` modulo `2^64`, otherwise it is `PC + 4`. -/
theorem c5_cbz (m : Machine)
    (h : mem_read_32 m.MEM m.CURRENT_STATE.PC &&& 0xFF000000 = 0xB4000000) :
    (m.CURRENT_STATE.REGS (mem_read_32 m.MEM m.CURRENT_STATE.PC &&& 0x1F) = 0 →
      (process_instruction m).NEXT_STATE.PC =
        wrap64 ((m.CURRENT_STATE.PC : Int) +
          (4 : Int) * signExtend 19 ((mem_read_32 m.MEM m.CURRENT_STATE.PC >>> 5) &&& 0x7FFFF))) ∧
    (m.CURRENT_STATE.REGS (mem_read_32 m.MEM m.CURRENT_STATE.PC &&& 0x1F) ≠ 0 →
      (process_instruction m).NEXT_STATE.PC = (m.CURRENT_STATE.PC + 4) % 2 ^ 64) :=
  step_cb m (by rw [mask_narrow h _ (by decide)]; decide)

/-- Witness for C5: with `X5 = 0` at `PC = 0x400000`, `0xB4000005` (offset 0) stages
`PC = 0x400000` and `0xB4000045` (`imm19 = 2`) stages `PC = 0x400008`; with `X5 = 7` the
word `0xB4000045` falls through to `0x400004`. -/
theorem c5_cbz_witness :
    (process_instruction (boot (zeroState 0x400000) (memWith 0x400000 0xB4000005))).NEXT_STATE.PC
        = 0x400000 ∧
    (process_instruction (boot (zeroState 0x400000) (memWith 0x400000 0xB4000045))).NEXT_STATE.PC
        = 0x400008 ∧
    (process_instruction
        (boot ⟨0x400000, regsOf [(5, 7)], 0, 0⟩ (memWith 0x400000 0xB4000045))).NEXT_STATE.PC
        = 0x400004 :=
  ⟨((c5_cbz (boot (zeroState 0x400000) (memWith 0x400000 0xB4000005)) (by decide)).1
      (by decide)).trans (by decide),
   ((c5_cbz (boot (zeroState 0x400000) (memWith 0x400000 0xB4000045)) (by decide)).1
      (by decide)).trans (by decide),
   ((c5_cbz (boot ⟨0x400000, regsOf [(5, 7)], 0, 0⟩ (memWith 0x400000 0xB4000045)) (by decide)).2
      (by decide)).trans (by decide)⟩

/-- The test `(instruction & CB_TYPE_MASK) == CBNZ` can never succeed: `CBNZ` has bit 24
set and `CB_TYPE_MASK` clears it. -/
theorem cbnz_test_never (I : Nat) : I &&& CB_TYPE_MASK ≠ CBNZ := by
  intro h
  have h2 := mask_narrow h CB_TYPE_MASK (by decide)
  rw [h] at h2
  exact absurd h2 (by decide)

/-- A CBNZ word (bits 31:24 equal `0xB5`) is executed as a CBZ: the branch is taken iff
`REGS[rt] = 0`. -/
theorem cbnz_runs_as_cbz (m : Machine)
    (h : mem_read_32 m.MEM m.CURRENT_STATE.PC &&& 0xFF000000 = 0xB5000000) :
    (m.CURRENT_STATE.REGS (mem_read_32 m.MEM m.CURRENT_STATE.PC &&& 0x1F) = 0 →
      (process_instruction m).NEXT_STATE.PC =
        wrap64 ((m.CURRENT_STATE.PC : Int) +
          (4 : Int) * signExtend 19 ((mem_read_32 m.MEM m.CURRENT_STATE.PC >>> 5) &&& 0x7FFFF))) ∧
    (m.CURRENT_STATE.REGS (mem_read_32 m.MEM m.CURRENT_STATE.PC &&& 0x1F) ≠ 0 →
      (process_instruction m).NEXT_STATE.PC = (m.CURRENT_STATE.PC + 4) % 2 ^ 64) :=
  step_cb m (by rw [mask_narrow h _ (by decide)]; decide)

/-- C6 (fails): the CBNZ word `0xB5000045` (`CBNZ X5, +8`) at `PC = 0x400000` with
`X5 = 1` stages `PC = 0x400004` (not taken, the claim says `0x400008`), and with `X5 = 0`
it stages `PC = 0x400008` (taken, the claim says `0x400004`). -/
theorem c6_cbnz_inverted :
    (process_instruction
        (boot ⟨0x400000, regsOf [(5, 1)], 0, 0⟩ (memWith 0x400000 0xB5000045))).NEXT_STATE.PC
        = 0x400004 ∧
    (process_instruction (boot (zeroState 0x400000) (memWith 0x400000 0xB5000045))).NEXT_STATE.PC
        = 0x400008 := by
  decide

/-- The function `check_condition` computes the condition table from the flags of `CURRENT_STATE`. -/
theorem check_condition_iff (m : Machine) (cond : Nat) :
    check_condition m cond = true ↔
      condTest cond m.CURRENT_STATE.FLAG_Z m.CURRENT_STATE.FLAG_N := by
  unfold check_condition condTest
  split_ifs <;> simp_all

/-- The fall-through address and a branch target coincide only for `imm19 = 1`. -/
theorem target_ne_fallthrough (pc x : Nat) (hx : x < 2 ^ 19) (h1 : x ≠ 1) :
    wrap64 ((pc : Int) + (4 : Int) * signExtend 19 x) ≠ (pc + 4) % 2 ^ 64 := by
  unfold wrap64 signExtend
  norm_num
  split_ifs <;> omega

/-- C7 (amended): for every fetched word with `(I & 0xFE000000) == 0x54000000`, with
`cond = I[3:0]` tested on the flags of the current state by the table EQ / NE / GE / LT /
GT / LE: if the test holds the staged program counter is `PC + 4 * signext19(I[23:5])`
modulo `2^64`; if it fails, and for every other cond code, it is `PC + 4`; hence, when
`I[23:5] ≠ 1`, the staged program counter equals the branch target exactly when the test
holds. No assumption on the flag values is needed. -/
theorem c7_b_cond (m : Machine)
    (h : mem_read_32 m.MEM m.CURRENT_STATE.PC &&& 0xFE000000 = 0x54000000) :
    (condTest (mem_read_32 m.MEM m.CURRENT_STATE.PC &&& 0xF)
        m.CURRENT_STATE.FLAG_Z m.CURRENT_STATE.FLAG_N →
      (process_instruction m).NEXT_STATE.PC =
        wrap64 ((m.CURRENT_STATE.PC : Int) +
          (4 : Int) * signExtend 19 ((mem_read_32 m.MEM m.CURRENT_STATE.PC >>> 5) &&& 0x7FFFF))) ∧
    (¬ condTest (mem_read_32 m.MEM m.CURRENT_STATE.PC &&& 0xF)
        m.CURRENT_STATE.FLAG_Z m.CURRENT_STATE.FLAG_N →
      (process_instruction m).NEXT_STATE.PC = (m.CURRENT_STATE.PC + 4) % 2 ^ 64) ∧
    ((mem_read_32 m.MEM m.CURRENT_STATE.PC >>> 5) &&& 0x7FFFF ≠ 1 →
      ((process_instruction m).NEXT_STATE.PC =
          wrap64 ((m.CURRENT_STATE.PC : Int) +
            (4 : Int) * signExtend 19 ((mem_read_32 m.MEM m.CURRENT_STATE.PC >>> 5) &&& 0x7FFFF)) ↔
        condTest (mem_read_32 m.MEM m.CURRENT_STATE.PC &&& 0xF)
          m.CURRENT_STATE.FLAG_Z m.CURRENT_STATE.FLAG_N)) := by
  have taken : condTest (mem_read_32 m.MEM m.CURRENT_STATE.PC &&& 0xF)
        m.CURRENT_STATE.FLAG_Z m.CURRENT_STATE.FLAG_N →
      (process_instruction m).NEXT_STATE.PC =
        wrap64 ((m.CURRENT_STATE.PC : Int) +
          (4 : Int) * signExtend 19 ((mem_read_32 m.MEM m.CURRENT_STATE.PC >>> 5) &&& 0x7FFFF)) := by
    intro hc
    simp +decide (disch := decide) only [process_instruction, mask_test_false h, h, false_and,
      or_self, if_false, if_true, decode_b_cond, check_condition_iff, hc, setNextReg, setNextPC,
      cb_offset_eq]
  have fall : ¬ condTest (mem_read_32 m.MEM m.CURRENT_STATE.PC &&& 0xF)
        m.CURRENT_STATE.FLAG_Z m.CURRENT_STATE.FLAG_N →
      (process_instruction m).NEXT_STATE.PC = (m.CURRENT_STATE.PC + 4) % 2 ^ 64 := by
    intro hc
    simp +decide (disch := decide) only [process_instruction, mask_test_false h, h, false_and,
      or_self, if_false, if_true, decode_b_cond, check_condition_iff, hc, setNextReg, setNextPC]
  refine ⟨taken, fall, ?_⟩
  intro h1
  constructor
  · intro heq
    by_contra hc
    rw [fall hc] at heq
    exact target_ne_fallthrough _ _ (Nat.and_lt_two_pow _ (by decide)) h1 heq.symm
  · exact taken

/-- Witness for C7: `B.EQ +8` (`0x54000040`) at `PC = 0x400000` with `Z = 1` stages
`PC = 0x400008`. -/
theorem c7_b_cond_witness :
    (process_instruction (boot ⟨0x400000, regsOf [], 0, 1⟩ (memWith 0x400000 0x54000040))).NEXT_STATE.PC
      = 0x400008 :=
  ((c7_b_cond (boot ⟨0x400000, regsOf [], 0, 1⟩ (memWith 0x400000 0x54000040)) (by decide)).1
    (by decide)).trans (by decide)

/-- C7 as first stated fails: for `B.EQ +4` (`0x54000020`, `imm19 = 1`) at `PC = 0x400000`
with `Z = 0, N = 0` the EQ test is false, yet the staged program counter `0x400004` equals
`PC + 4 * signext19(imm19)`; so "equal to the target exactly when the test holds" is false
here. -/
theorem c7_counterexample :
    ¬ ((process_instruction (boot (zeroState 0x400000) (memWith 0x400000 0x54000020))).NEXT_STATE.PC
          = wrap64 ((0x400000 : Int) + (4 : Int) * signExtend 19 ((0x54000020 >>> 5) &&& 0x7FFFF)) ↔
        condTest (0x54000020 &&& 0xF) 0 0) := by
  decide

/-- The test `(instruction & 0xFFE0FC00) == BR` can never succeed: `BR = 0xD61F0000` has
bits 20:16 set and the mask `0xFFE0FC00` clears them. -/
theorem br_test_never (I : Nat) : I &&& 0xFFE0FC00 ≠ BR := by
  intro h
  have h2 := mask_narrow h 0xFFE0FC00 (by decide)
  rw [h] at h2
  exact absurd h2 (by decide)

/-- Every `BR Xn` word (`0xD61F0000 | rn << 5`) falls through the classifier to
`decode_r_type`, matches nothing there, and the step only stages `PC + 4`. -/
theorem br_word_falls_through (m : Machine) (rn : Nat) (hrn : rn < 32)
    (hI : mem_read_32 m.MEM m.CURRENT_STATE.PC = 0xD61F0000 ||| rn <<< 5) :
    (process_instruction m).NEXT_STATE.PC = (m.CURRENT_STATE.PC + 4) % 2 ^ 64 := by
  have hall : ∀ k : Nat, k < 32 → (0xD61F0000 ||| k <<< 5) &&& 0xFFFFFC1F = 0xD61F0000 := by
    decide
  have h : mem_read_32 m.MEM m.CURRENT_STATE.PC &&& 0xFFFFFC1F = 0xD61F0000 := by
    rw [hI]; exact hall rn hrn
  simp (disch := decide) only [process_instruction, mask_test_false h, false_and, or_self,
    if_false, decode_r_type, setNextReg, setNextPC]

/-- C8 (fails): `BR X1` (`0xD61F0020`) at `PC = 0x400000` with `X1 = 0x400100` stages
`PC = 0x400004`, not `0x400100`: the BR test of the classifier never matches. -/
theorem c8_br_not_taken :
    (process_instruction
        (boot ⟨0x400000, regsOf [(1, 0x400100)], 0, 0⟩ (memWith 0x400000 0xD61F0020))).NEXT_STATE.PC
      = 0x400004 := by
  decide

/-! ## MOVZ -/

/-- A word recognised as MOVZ (`(I & 0x7FC00000) == 0x52800000`) with `rd ≠ 31` writes the
I-form field `imm12 = I[21:10]` to `rd`; the 16-bit immediate of MOVZ sits in `I[20:5]`. -/
theorem movz_writes_imm12 (m : Machine)
    (h : mem_read_32 m.MEM m.CURRENT_STATE.PC &&& 0x7FC00000 = 0x52800000)
    (hrd : mem_read_32 m.MEM m.CURRENT_STATE.PC &&& 0x1F ≠ 31) :
    (process_instruction m).NEXT_STATE.REGS (mem_read_32 m.MEM m.CURRENT_STATE.PC &&& 0x1F) =
      (mem_read_32 m.MEM m.CURRENT_STATE.PC >>> 10) &&& 0xFFF := by
  simp +decide (disch := decide) only [process_instruction, mask_test_false h, h, false_and,
    or_self, or_true, true_or, or_false, false_or, if_false, if_true, decode_i_type, writeRd,
    setNextReg, setNextPC, Nat.shiftRight_zero, hrd, ne_eq, not_false_eq_true, X31]
  rw [Function.update_noteq hrd, Function.update_same]

/-- C9 (fails): the scenario word `0xD2800020` (`MOVZ X0, #1`) from the all-zero state
stages `X0 = 0`, not 1: `decode_i_type` writes `I[21:10]`, which is 0 for this word. -/
theorem c9_movz_scenario :
    (process_instruction (boot (zeroState 0x400000) (memWith 0x400000 0xD2800020))).NEXT_STATE.REGS 0
      = 0 := by
  decide

/-! ## Stores -/

theorem mem_read_32_lt (mem : Memory) (a : Nat) : mem_read_32 mem a < 2 ^ 32 := by
  unfold mem_read_32; omega

/-- Read-after-write: the word just written at `a` is read back at `a`. -/
theorem mem_read_write_same (mem : Memory) (a v : Nat) :
    mem_read_32 (mem_write_32 mem a v) a = v % 2 ^ 32 := by
  simp only [mem_read_32, mem_write_32]
  have e1 : ¬ (a + 1 = a) := by omega
  have e2 : ¬ (a + 2 = a) := by omega
  have e3 : ¬ (a + 3 = a) := by omega
  have e4 : ¬ (a + 2 = a + 1) := by omega
  have e5 : ¬ (a + 3 = a + 1) := by omega
  have e6 : ¬ (a + 3 = a + 2) := by omega
  simp only [if_true, if_false, e1, e2, e3, e4, e5, e6]
  omega

/-- A write at `a` leaves the word at `b` alone when the two words share no byte. -/
theorem mem_read_write_disjoint (mem : Memory) (a v b : Nat) (h : b + 4 ≤ a ∨ a + 4 ≤ b) :
    mem_read_32 (mem_write_32 mem a v) b = mem_read_32 mem b := by
  simp only [mem_read_32, mem_write_32]
  have e0 : ∀ i j, i < 4 → j < 4 → ¬ (b + i = a + j) := by intro i j hi hj; omega
  have f0 : ¬ (b = a) := by omega
  have f1 : ¬ (b = a + 1) := by omega
  have f2 : ¬ (b = a + 2) := by omega
  have f3 : ¬ (b = a + 3) := by omega
  have g1 : ¬ (b + 1 = a) := by omega
  have g2 : ¬ (b + 2 = a) := by omega
  have g3 : ¬ (b + 3 = a) := by omega
  simp only [if_false, f0, f1, f2, f3, g1, g2, g3, e0 1 1 (by decide) (by decide),
    e0 1 2 (by decide) (by decide), e0 1 3 (by decide) (by decide),
    e0 2 1 (by decide) (by decide), e0 2 2 (by decide) (by decide),
    e0 2 3 (by decide) (by decide), e0 3 1 (by decide) (by decide),
    e0 3 2 (by decide) (by decide), e0 3 3 (by decide) (by decide)]

theorem mem_write_32_mod (mem : Memory) (a v : Nat) :
    mem_write_32 mem a (v % 2 ^ 32) = mem_write_32 mem a v := by
  unfold mem_write_32
  congr 1
  funext x
  have h0 : v % 2 ^ 32 % 256 = v % 256 := by omega
  have h1 : v % 2 ^ 32 / 2 ^ 8 % 256 = v / 2 ^ 8 % 256 := by omega
  have h2 : v % 2 ^ 32 / 2 ^ 16 % 256 = v / 2 ^ 16 % 256 := by omega
  have h3 : v % 2 ^ 32 / 2 ^ 24 % 256 = v / 2 ^ 24 % 256 := by omega
  rw [h0, h1, h2, h3]

/-- The machine left by a STURB word. -/
theorem step_sturb (m : Machine)
    (h : mem_read_32 m.MEM m.CURRENT_STATE.PC &&& 0xFFC00000 = 0x38000000) :
    process_instruction m =
      { CURRENT_STATE := m.CURRENT_STATE
        NEXT_STATE :=
          { m.CURRENT_STATE with
            PC := (m.CURRENT_STATE.PC + 4) % 2 ^ 64
            REGS := Function.update m.CURRENT_STATE.REGS 31 0 }
        RUN_BIT := m.RUN_BIT
        MEM := mem_write_32 m.MEM (dAddr m.CURRENT_STATE (mem_read_32 m.MEM m.CURRENT_STATE.PC))
          ((mem_read_32 m.MEM (dAddr m.CURRENT_STATE (mem_read_32 m.MEM m.CURRENT_STATE.PC))
              &&& 0xFFFFFF00) |||
            (m.CURRENT_STATE.REGS (mem_read_32 m.MEM m.CURRENT_STATE.PC &&& 0x1F) &&& 0xFF)) } := by
  simp +decide (disch := decide) only [process_instruction, mask_test_false h, h, false_and,
    or_self, or_true, true_or, or_false, false_or, if_false, if_true, decode_d_type,
    setNextReg, setNextPC, Nat.shiftRight_zero, wrap64_toInt64_add_nat, mem_write_32_mod, dAddr]

/-- C10 (amended): for every fetched word with `(I & 0xFFC00000) == 0x38000000` (STURB),
with `addr = REGS[I[9:5]] + I[20:12]` modulo `2^64`: the step performs the single write
`mem_write_32(addr, (old word at addr & 0xFFFFFF00) | (REGS[I[4:0]] & 0xFF))`; afterwards
the word at `addr` is that value, every memory word that shares no byte with the word at
`addr` (its address is at least 4 away) is unchanged, and registers other than 31 and both
flags of the staged state equal those of the current state. -/
theorem c10_sturb (m : Machine)
    (h : mem_read_32 m.MEM m.CURRENT_STATE.PC &&& 0xFFC00000 = 0x38000000) :
    (process_instruction m).MEM =
        mem_write_32 m.MEM (dAddr m.CURRENT_STATE (mem_read_32 m.MEM m.CURRENT_STATE.PC))
          ((mem_read_32 m.MEM (dAddr m.CURRENT_STATE (mem_read_32 m.MEM m.CURRENT_STATE.PC))
              &&& 0xFFFFFF00) |||
            (m.CURRENT_STATE.REGS (mem_read_32 m.MEM m.CURRENT_STATE.PC &&& 0x1F) &&& 0xFF)) ∧
      mem_read_32 (process_instruction m).MEM
          (dAddr m.CURRENT_STATE (mem_read_32 m.MEM m.CURRENT_STATE.PC)) =
        (mem_read_32 m.MEM (dAddr m.CURRENT_STATE (mem_read_32 m.MEM m.CURRENT_STATE.PC))
            &&& 0xFFFFFF00) |||
          (m.CURRENT_STATE.REGS (mem_read_32 m.MEM m.CURRENT_STATE.PC &&& 0x1F) &&& 0xFF) ∧
      (∀ a, (a + 4 ≤ dAddr m.CURRENT_STATE (mem_read_32 m.MEM m.CURRENT_STATE.PC) ∨
          dAddr m.CURRENT_STATE (mem_read_32 m.MEM m.CURRENT_STATE.PC) + 4 ≤ a) →
        mem_read_32 (process_instruction m).MEM a = mem_read_32 m.MEM a) ∧
      (∀ i, i ≠ 31 → (process_instruction m).NEXT_STATE.REGS i = m.CURRENT_STATE.REGS i) ∧
      (process_instruction m).NEXT_STATE.FLAG_Z = m.CURRENT_STATE.FLAG_Z ∧
      (process_instruction m).NEXT_STATE.FLAG_N = m.CURRENT_STATE.FLAG_N := by
  rw [step_sturb m h]
  refine ⟨rfl, ?_, ?_, ?_, rfl, rfl⟩
  · rw [mem_read_write_same]
    apply Nat.mod_eq_of_lt
    apply Nat.or_lt_two_pow
    · exact lt_of_le_of_lt Nat.and_le_left (mem_read_32_lt _ _)
    · exact Nat.and_lt_two_pow _ (by decide)
  · intro a ha
    exact mem_read_write_disjoint _ _ _ _ ha
  · intro i hi
    exact Function.update_noteq hi _ _

/-- Witness for C10: the scenario `Mem[0x1000] = 0xAABBCCDD`, `X2 = 0x11`, `X3 = 0x1000`,
`STURB X2, [X3, #0]` (`0x38000062`, fetched at `PC = 0x400000`) leaves
`Mem[0x1000] = 0xAABBCC11`, and the word at `0x400000` is still the instruction. -/
theorem c10_sturb_witness :
    mem_read_32
        (process_instruction
          (boot ⟨0x400000, regsOf [(2, 0x11), (3, 0x1000)], 0, 0⟩
            (memOf [(0x400000, 0x38000062), (0x1000, 0xAABBCCDD)]))).MEM 0x1000 = 0xAABBCC11 ∧
      mem_read_32
        (process_instruction
          (boot ⟨0x400000, regsOf [(2, 0x11), (3, 0x1000)], 0, 0⟩
            (memOf [(0x400000, 0x38000062), (0x1000, 0xAABBCCDD)]))).MEM 0x400000 = 0x38000062 :=
  ⟨((c10_sturb
      (boot ⟨0x400000, regsOf [(2, 0x11), (3, 0x1000)], 0, 0⟩
        (memOf [(0x400000, 0x38000062), (0x1000, 0xAABBCCDD)])) (by decide)).2.1).trans
    (by decide),
   ((c10_sturb
      (boot ⟨0x400000, regsOf [(2, 0x11), (3, 0x1000)], 0, 0⟩
        (memOf [(0x400000, 0x38000062), (0x1000, 0xAABBCCDD)])) (by decide)).2.2.1
      0x400000 (by decide)).trans (by decide)⟩

/-- C10 as first stated fails at an address that is not a multiple of 4: with
`Mem[0x1000] = 0xAABBCCDD`, `X2 = 0x11`, `X3 = 0x1001`, `STURB X2, [X3, #0]`
(`0x38000062`) rewrites the word at `0x1001`, whose low byte is byte 1 of the word at
`0x1000`; that other word becomes `0xAABB11DD`. -/
theorem c10_counterexample :
    mem_read_32 (boot ⟨0x400000, regsOf [(2, 0x11), (3, 0x1001)], 0, 0⟩
        (memOf [(0x400000, 0x38000062), (0x1000, 0xAABBCCDD)])).MEM 0x400000
        &&& 0xFFC00000 = 0x38000000 ∧
      (0x1000 : Nat) ≠ dAddr (boot ⟨0x400000, regsOf [(2, 0x11), (3, 0x1001)], 0, 0⟩
          (memOf [(0x400000, 0x38000062), (0x1000, 0xAABBCCDD)])).CURRENT_STATE 0x38000062 ∧
      ¬ (mem_read_32
          (process_instruction
            (boot ⟨0x400000, regsOf [(2, 0x11), (3, 0x1001)], 0, 0⟩
              (memOf [(0x400000, 0x38000062), (0x1000, 0xAABBCCDD)]))).MEM 0x1000 =
        mem_read_32 (boot ⟨0x400000, regsOf [(2, 0x11), (3, 0x1001)], 0, 0⟩
          (memOf [(0x400000, 0x38000062), (0x1000, 0xAABBCCDD)])).MEM 0x1000) ∧
      mem_read_32
          (process_instruction
            (boot ⟨0x400000, regsOf [(2, 0x11), (3, 0x1001)], 0, 0⟩
              (memOf [(0x400000, 0x38000062), (0x1000, 0xAABBCCDD)]))).MEM 0x1000
        = 0xAABB11DD := by
  decide

/-! ## Loads -/

theorem toInt32_eq_signExtend (w : Nat) : toInt32 w = signExtend 32 w := by
  unfold toInt32 signExtend
  norm_num

/-- The register written by a LDUR word whose target is not register 31. -/
theorem ldur_result (m : Machine)
    (h : mem_read_32 m.MEM m.CURRENT_STATE.PC &&& 0xFFC00000 = 0xF8400000)
    (hrt : mem_read_32 m.MEM m.CURRENT_STATE.PC &&& 0x1F ≠ 31) :
    (process_instruction m).NEXT_STATE.REGS (mem_read_32 m.MEM m.CURRENT_STATE.PC &&& 0x1F) =
      wrap64 (signExtend 32
        (mem_read_32 m.MEM (dAddr m.CURRENT_STATE (mem_read_32 m.MEM m.CURRENT_STATE.PC)))) := by
  simp +decide (disch := decide) only [process_instruction, mask_test_false h, h, false_and,
    or_self, or_true, true_or, or_false, false_or, if_false, if_true, decode_d_type, writeRd,
    setNextReg, setNextPC, Nat.shiftRight_zero, hrt, ne_eq, not_false_eq_true, X31,
    wrap64_toInt64_add_nat, toInt32_eq_signExtend, dAddr]
  rw [Function.update_noteq hrt, Function.update_same]

/-- A LDUR word leaves memory alone. -/
theorem ldur_MEM (m : Machine)
    (h : mem_read_32 m.MEM m.CURRENT_STATE.PC &&& 0xFFC00000 = 0xF8400000) :
    (process_instruction m).MEM = m.MEM := by
  simp +decide (disch := decide) only [process_instruction, mask_test_false h, h, false_and,
    or_self, or_true, true_or, or_false, false_or, if_false, if_true, decode_d_type,
    setNextReg, setNextPC, writeRd_MEM]

/-- C11: for every fetched word with `(I & 0xFFC00000) == 0xF8400000` (LDUR) and
`rt = I[4:0] ≠ 31`, the staged `REGS[rt]` is the 32-bit word `read32(REGS[I[9:5]] + imm9)`
sign-extended from bit 31 to 64 bits, where `imm9 = I[20:12]` enters the address as an
unsigned value (at most 511, so the address is never below `REGS[I[9:5]]` except by
wrap-around), and memory is unchanged. -/
theorem c11_ldur (m : Machine)
    (h : mem_read_32 m.MEM m.CURRENT_STATE.PC &&& 0xFFC00000 = 0xF8400000)
    (hrt : mem_read_32 m.MEM m.CURRENT_STATE.PC &&& 0x1F ≠ 31) :
    (process_instruction m).NEXT_STATE.REGS (mem_read_32 m.MEM m.CURRENT_STATE.PC &&& 0x1F) =
        wrap64 (signExtend 32
          (mem_read_32 m.MEM
            ((m.CURRENT_STATE.REGS ((mem_read_32 m.MEM m.CURRENT_STATE.PC >>> 5) &&& 0x1F) +
              ((mem_read_32 m.MEM m.CURRENT_STATE.PC >>> 12) &&& 0x1FF)) % 2 ^ 64))) ∧
      (mem_read_32 m.MEM m.CURRENT_STATE.PC >>> 12) &&& 0x1FF ≤ 511 ∧
      (process_instruction m).MEM = m.MEM :=
  ⟨ldur_result m h hrt, Nat.and_le_right, ldur_MEM m h⟩

/-- Witness for C11: `LDUR X1, [X2, #0x1FF]` (`0xF85FF041`) with `X2 = 0x1000` reads the
word at `0x11FF` (offset +511, not -1); the word `0x80000001` there is staged in `X1` as
`0xFFFFFFFF80000001`. -/
theorem c11_ldur_witness :
    (process_instruction
        (boot ⟨0x400000, regsOf [(2, 0x1000)], 0, 0⟩
          (memOf [(0x400000, 0xF85FF041), (0x11FF, 0x80000001), (0xFFF, 0x7)]))).NEXT_STATE.REGS 1
      = 0xFFFFFFFF80000001 :=
  ((c11_ldur
      (boot ⟨0x400000, regsOf [(2, 0x1000)], 0, 0⟩
        (memOf [(0x400000, 0xF85FF041), (0x11FF, 0x80000001), (0xFFF, 0x7)]))
      (by decide) (by decide)).1).trans (by decide)

/-! ## Frame lemmas for the staged program counter and registers -/

theorem writeRd_REGS_frame (m : Machine) (rd v i : Nat) (hi : i ≠ rd ∨ rd = 31) :
    (writeRd m rd v).NEXT_STATE.REGS i = m.NEXT_STATE.REGS i := by
  unfold writeRd setNextReg
  split
  · next hrd =>
    rcases hi with hi | hi
    · exact Function.update_noteq hi _ _
    · exact absurd hi hrd
  · rfl

@[simp] theorem update_flags_PC (m : Machine) (r : Nat) :
    (update_flags m r).NEXT_STATE.PC = m.NEXT_STATE.PC := rfl

@[simp] theorem update_flags_REGS (m : Machine) (r : Nat) :
    (update_flags m r).NEXT_STATE.REGS = m.NEXT_STATE.REGS := rfl

@[simp] theorem update_flags_MEM (m : Machine) (r : Nat) : (update_flags m r).MEM = m.MEM := rfl

theorem decode_r_type_PC (m : Machine) (I : Nat) :
    (decode_r_type m I).NEXT_STATE.PC = m.NEXT_STATE.PC := by
  unfold decode_r_type
  simp only []
  split_ifs <;> simp

theorem decode_i_type_PC (m : Machine) (I : Nat) :
    (decode_i_type m I).NEXT_STATE.PC = m.NEXT_STATE.PC := by
  unfold decode_i_type
  simp only []
  split_ifs <;> simp

theorem decode_d_type_PC (m : Machine) (I : Nat) :
    (decode_d_type m I).NEXT_STATE.PC = m.NEXT_STATE.PC := by
  unfold decode_d_type
  simp only []
  split_ifs <;> simp

theorem decode_r_type_REGS_frame (m : Machine) (I i : Nat) (hi : i ≠ I &&& 0x1F ∨ I &&& 0x1F = 31) :
    (decode_r_type m I).NEXT_STATE.REGS i = m.NEXT_STATE.REGS i := by
  unfold decode_r_type
  simp only [Nat.shiftRight_zero]
  split_ifs <;> simp [writeRd_REGS_frame _ _ _ _ hi]

theorem decode_i_type_REGS_frame (m : Machine) (I i : Nat) (hi : i ≠ I &&& 0x1F ∨ I &&& 0x1F = 31) :
    (decode_i_type m I).NEXT_STATE.REGS i = m.NEXT_STATE.REGS i := by
  unfold decode_i_type
  simp only [Nat.shiftRight_zero]
  split_ifs <;> simp [writeRd_REGS_frame _ _ _ _ hi]

theorem decode_d_type_REGS_frame (m : Machine) (I i : Nat) (hi : i ≠ I &&& 0x1F ∨ I &&& 0x1F = 31) :
    (decode_d_type m I).NEXT_STATE.REGS i = m.NEXT_STATE.REGS i := by
  unfold decode_d_type
  simp only [Nat.shiftRight_zero]
  split_ifs <;> simp [writeRd_REGS_frame _ _ _ _ hi]

theorem decode_b_type_REGS (m : Machine) (I : Nat) :
    (decode_b_type m I).NEXT_STATE.REGS = m.NEXT_STATE.REGS := by
  simp [decode_b_type]

theorem decode_cb_type_REGS (m : Machine) (I : Nat) :
    (decode_cb_type m I).NEXT_STATE.REGS = m.NEXT_STATE.REGS := by
  unfold decode_cb_type
  simp only []
  split_ifs <;> simp

theorem decode_b_cond_REGS (m : Machine) (I : Nat) :
    (decode_b_cond m I).NEXT_STATE.REGS = m.NEXT_STATE.REGS := by
  unfold decode_b_cond
  simp only []
  split_ifs <;> simp

/-- Registers other than 31 and other than the destination field `I[4:0]` are copied from
the current state by every step; when `I[4:0] = 31` that is every register but 31. -/
theorem regs_frame (m : Machine) (i : Nat) (h31 : i ≠ 31)
    (hi : i ≠ mem_read_32 m.MEM m.CURRENT_STATE.PC &&& 0x1F ∨
      mem_read_32 m.MEM m.CURRENT_STATE.PC &&& 0x1F = 31) :
    (process_instruction m).NEXT_STATE.REGS i = m.CURRENT_STATE.REGS i := by
  unfold process_instruction
  simp only [setNextReg]
  split_ifs <;>
    simp [Function.update_noteq h31, decode_r_type_REGS_frame _ _ _ hi,
      decode_i_type_REGS_frame _ _ _ hi, decode_d_type_REGS_frame _ _ _ hi, decode_b_type_REGS,
      decode_cb_type_REGS, decode_b_cond_REGS]

/-! ## Program counter: alignment and fall-through -/

theorem wrap64_aligned (pc : Nat) (k : Int) (h : pc % 4 = 0) :
    wrap64 ((pc : Int) + 4 * k) % 4 = 0 := by
  unfold wrap64; omega

theorem decode_b_type_PC_aligned (m : Machine) (I : Nat) (h : m.CURRENT_STATE.PC % 4 = 0) :
    (decode_b_type m I).NEXT_STATE.PC % 4 = 0 := by
  simp only [decode_b_type, setNextPC_PC, b_offset_eq]
  exact wrap64_aligned _ _ h

theorem decode_cb_type_PC_aligned (m : Machine) (I : Nat) (h : m.CURRENT_STATE.PC % 4 = 0)
    (hn : m.NEXT_STATE.PC % 4 = 0) : (decode_cb_type m I).NEXT_STATE.PC % 4 = 0 := by
  unfold decode_cb_type
  simp only [cb_offset_eq]
  split_ifs <;> first | exact hn | (simp only [setNextPC_PC]; exact wrap64_aligned _ _ h)

theorem decode_b_cond_PC_aligned (m : Machine) (I : Nat) (h : m.CURRENT_STATE.PC % 4 = 0)
    (hn : m.NEXT_STATE.PC % 4 = 0) : (decode_b_cond m I).NEXT_STATE.PC % 4 = 0 := by
  unfold decode_b_cond
  simp only [cb_offset_eq]
  split_ifs <;> first | exact hn | (simp only [setNextPC_PC]; exact wrap64_aligned _ _ h)

/-- C12: if the current program counter is a multiple of 4, so is the staged one, for
every memory and every fetched word. -/
theorem c12_pc_aligned (m : Machine) (hpc : m.CURRENT_STATE.PC % 4 = 0) :
    (process_instruction m).NEXT_STATE.PC % 4 = 0 := by
  have hfall : (m.CURRENT_STATE.PC + 4) % 2 ^ 64 % 4 = 0 := by omega
  unfold process_instruction
  simp only [setNextReg, br_test_never, if_false]
  split_ifs
  · exact hfall
  · simpa [decode_r_type_PC] using hfall
  · exact decode_b_type_PC_aligned _ _ hpc
  · exact decode_cb_type_PC_aligned _ _ hpc hfall
  · exact decode_b_cond_PC_aligned _ _ hpc hfall
  · simpa [decode_d_type_PC] using hfall
  · simpa [decode_i_type_PC] using hfall
  · simpa [decode_r_type_PC] using hfall

/-- Witness for C12: the backward branch `0x17FFFFFC` at `PC = 0x400010` stages an aligned
program counter. -/
theorem c12_pc_aligned_witness :
    (process_instruction
      (boot (zeroState 0x400010) (memWith 0x400010 0x17FFFFFC))).NEXT_STATE.PC % 4 = 0 :=
  c12_pc_aligned (boot (zeroState 0x400010) (memWith 0x400010 0x17FFFFFC)) (by decide)

/-- C13: for every fetched word that is not HLT and that the classifier sends to none of
the B, CBZ/CBNZ and B.cond executors, the staged program counter is `PC + 4` modulo
`2^64`. (The BR test of the classifier never matches, so nothing needs to be assumed
about BR.) -/
theorem c13_fallthrough (m : Machine)
    (hH : mem_read_32 m.MEM m.CURRENT_STATE.PC &&& 0xFFFFFFE0 ≠ 0xD4400000)
    (hB : mem_read_32 m.MEM m.CURRENT_STATE.PC &&& 0xFC000000 ≠ 0x14000000)
    (hCB : mem_read_32 m.MEM m.CURRENT_STATE.PC &&& 0xFE000000 ≠ 0xB4000000)
    (hBC : mem_read_32 m.MEM m.CURRENT_STATE.PC &&& 0xFE000000 ≠ 0x54000000) :
    (process_instruction m).NEXT_STATE.PC = (m.CURRENT_STATE.PC + 4) % 2 ^ 64 := by
  unfold process_instruction
  simp only [setNextReg, br_test_never, cbnz_test_never, hH, hB, hCB, hBC, if_false, or_self]
  split_ifs <;> simp [decode_r_type_PC, decode_i_type_PC, decode_d_type_PC]

/-- Witness for C13: `ADDS X0, X1, #1` (`0xB1000420`) at `PC = 0x400000` stages
`PC = 0x400004`. -/
theorem c13_fallthrough_witness :
    (process_instruction (boot (zeroState 0x400000) (memWith 0x400000 0xB1000420))).NEXT_STATE.PC
      = 0x400004 :=
  c13_fallthrough (boot (zeroState 0x400000) (memWith 0x400000 0xB1000420))
    (by decide) (by decide) (by decide) (by decide)

/-! ## Writes aimed at the zero register -/

/-- C14: for every fetched word whose destination field `I[4:0]` is 31, every register
`0..30` of the staged state equals the same register of the current state. -/
theorem c14_xzr_write (m : Machine)
    (h : mem_read_32 m.MEM m.CURRENT_STATE.PC &&& 0x1F = 31) (i : Nat) (hi : i < 31) :
    (process_instruction m).NEXT_STATE.REGS i = m.CURRENT_STATE.REGS i :=
  regs_frame m i (Nat.ne_of_lt hi) (Or.inr h)

/-- Witness for C14: `ADDS XZR, X1, #1` (`0xB100043F`) with `X0 = 7`, `X1 = 9` leaves
`X1 = 9`. -/
theorem c14_xzr_write_witness :
    (process_instruction
        (boot ⟨0x400000, regsOf [(0, 7), (1, 9)], 0, 0⟩
          (memWith 0x400000 0xB100043F))).NEXT_STATE.REGS 1 = 9 :=
  c14_xzr_write
    (boot ⟨0x400000, regsOf [(0, 7), (1, 9)], 0, 0⟩ (memWith 0x400000 0xB100043F))
    (by decide) 1 (by decide)

/-! ## MOVK -/

/-- The machine left by a MOVK word: recognised by the classifier, matched by no branch of
`decode_i_type`. -/
theorem step_movk (m : Machine)
    (h : mem_read_32 m.MEM m.CURRENT_STATE.PC &&& 0x7FC00000 = 0x72800000) :
    process_instruction m =
      { CURRENT_STATE := m.CURRENT_STATE
        NEXT_STATE :=
          { m.CURRENT_STATE with
            PC := (m.CURRENT_STATE.PC + 4) % 2 ^ 64
            REGS := Function.update m.CURRENT_STATE.REGS 31 0 }
        RUN_BIT := m.RUN_BIT
        MEM := m.MEM } := by
  simp +decide (disch := decide) only [process_instruction, mask_test_false h, h, false_and,
    or_self, or_true, true_or, or_false, false_or, if_false, if_true, decode_i_type,
    setNextReg, setNextPC]

/-- C19: for every fetched MOVK word (`(I & 0x7FC00000) == 0x72800000`), registers `0..30`
and both flags of the staged state equal those of the current state, memory and `RUN_BIT`
are unchanged, and the staged program counter is `PC + 4` (in 64 bits). -/
theorem c19_movk (m : Machine)
    (h : mem_read_32 m.MEM m.CURRENT_STATE.PC &&& 0x7FC00000 = 0x72800000) :
    (∀ i, i < 31 → (process_instruction m).NEXT_STATE.REGS i = m.CURRENT_STATE.REGS i) ∧
      (process_instruction m).NEXT_STATE.FLAG_Z = m.CURRENT_STATE.FLAG_Z ∧
      (process_instruction m).NEXT_STATE.FLAG_N = m.CURRENT_STATE.FLAG_N ∧
      (process_instruction m).MEM = m.MEM ∧
      (process_instruction m).RUN_BIT = m.RUN_BIT ∧
      (process_instruction m).NEXT_STATE.PC = (m.CURRENT_STATE.PC + 4) % 2 ^ 64 := by
  rw [step_movk m h]
  refine ⟨?_, rfl, rfl, rfl, rfl, rfl⟩
  intro i hi
  exact Function.update_noteq (Nat.ne_of_lt hi) _ _

/-- Witness for C19: `MOVK X0, #1` (`0xF2800020`) with `X0 = 7` leaves `X0 = 7` and stages
`PC = 0x400004`. -/
theorem c19_movk_witness :
    (process_instruction
        (boot ⟨0x400000, regsOf [(0, 7)], 0, 0⟩ (memWith 0x400000 0xF2800020))).NEXT_STATE.REGS 0
        = 7 ∧
    (process_instruction
        (boot ⟨0x400000, regsOf [(0, 7)], 0, 0⟩ (memWith 0x400000 0xF2800020))).NEXT_STATE.PC
        = 0x400004 :=
  ⟨(c19_movk (boot ⟨0x400000, regsOf [(0, 7)], 0, 0⟩ (memWith 0x400000 0xF2800020))
      (by decide)).1 0 (by decide),
   (c19_movk (boot ⟨0x400000, regsOf [(0, 7)], 0, 0⟩ (memWith 0x400000 0xF2800020))
      (by decide)).2.2.2.2.2⟩

/-! ## Encodings the classifier misses -/

/-- A word with the ADDS-, SUBS- or ADD-immediate opcode and shift field `I[23:22] = 1`
(`(I & 0x7FC00000)` equal to `0x31400000`, `0x71400000` or `0x11400000`) matches no rule:
the I-form tests compare the shift bits too, so the `shift == 1` branch of `decode_i_type`
is never reached. The step only stages `PC + 4` and resets register 31. -/
theorem step_imm_lsl12 (m : Machine)
    (h : mem_read_32 m.MEM m.CURRENT_STATE.PC &&& 0x7FC00000 = 0x31400000 ∨
      mem_read_32 m.MEM m.CURRENT_STATE.PC &&& 0x7FC00000 = 0x71400000 ∨
      mem_read_32 m.MEM m.CURRENT_STATE.PC &&& 0x7FC00000 = 0x11400000) :
    process_instruction m =
      { CURRENT_STATE := m.CURRENT_STATE
        NEXT_STATE :=
          { m.CURRENT_STATE with
            PC := (m.CURRENT_STATE.PC + 4) % 2 ^ 64
            REGS := Function.update m.CURRENT_STATE.REGS 31 0 }
        RUN_BIT := m.RUN_BIT
        MEM := m.MEM } := by
  rcases h with h | h | h <;>
    simp +decide (disch := decide) only [process_instruction, mask_test_false h, false_and,
      or_self, if_false, decode_r_type, setNextReg, setNextPC]

/-- C17 (fails): `ADDS X0, X1, #1, LSL #12` (`0xB1400420`) with `X1 = 5` stages `X0 = 0`
(unchanged), not `5 + 0x1000`; likewise `ADD` (`0x91400420`) and `SUBS` (`0xF1400420`,
with `X1 = 0x2000`) leave `X0 = 0`. -/
theorem c17_shifted_imm_ignored :
    (process_instruction
        (boot ⟨0x400000, regsOf [(1, 5)], 0, 0⟩ (memWith 0x400000 0xB1400420))).NEXT_STATE.REGS 0
        = 0 ∧
    (process_instruction
        (boot ⟨0x400000, regsOf [(1, 5)], 0, 0⟩ (memWith 0x400000 0x91400420))).NEXT_STATE.REGS 0
        = 0 ∧
    (process_instruction
        (boot ⟨0x400000, regsOf [(1, 0x2000)], 0, 0⟩ (memWith 0x400000 0xF1400420))).NEXT_STATE.REGS 0
        = 0 := by
  decide

/-- The MUL test of the classifier, `(I & 0x1F000000) == 0x1B000000 && (I & 0x3FF) == 0x7C`,
forces the destination field to 28 and the first source field to 3. -/
theorem mul_test_fields (I : Nat) (h : I &&& 0x3FF = 0x7C) :
    I &&& 0x1F = 28 ∧ (I >>> 5) &&& 0x1F = 3 := by
  constructor
  · rw [mask_narrow h _ (by decide)]; decide
  · rw [field_of_mask h 5 0x1F (by decide)]; decide

/-- A word built on the MUL opcode constant (`(I & 0x7FE0FC00) == 0x1B007C00`, bit 31
either way) whose low ten bits are not `0x7C`, that is with `(rn, rd) ≠ (3, 28)`, matches
no rule: the step only stages `PC + 4` and resets register 31. -/
theorem step_mul_word (m : Machine)
    (h : mem_read_32 m.MEM m.CURRENT_STATE.PC &&& 0x7FE0FC00 = 0x1B007C00)
    (hne : mem_read_32 m.MEM m.CURRENT_STATE.PC &&& 0x3FF ≠ 0x7C) :
    process_instruction m =
      { CURRENT_STATE := m.CURRENT_STATE
        NEXT_STATE :=
          { m.CURRENT_STATE with
            PC := (m.CURRENT_STATE.PC + 4) % 2 ^ 64
            REGS := Function.update m.CURRENT_STATE.REGS 31 0 }
        RUN_BIT := m.RUN_BIT
        MEM := m.MEM } := by
  simp +decide (disch := decide) only [process_instruction, mask_test_false h, h, hne, and_false,
    false_and, or_self, if_false, decode_r_type, setNextReg, setNextPC]

/-- C18 (fails): `MUL X0, X1, X2` (`0x9B027C20`, and `0x1B027C20` with bit 31 clear) with
`X1 = 3`, `X2 = 5` stages `X0 = 0`, not 15: the word fails the MUL test and matches
nothing else. -/
theorem c18_mul_not_recognised :
    (process_instruction
        (boot ⟨0x400000, regsOf [(1, 3), (2, 5)], 0, 0⟩
          (memWith 0x400000 0x9B027C20))).NEXT_STATE.REGS 0 = 0 ∧
    (process_instruction
        (boot ⟨0x400000, regsOf [(1, 3), (2, 5)], 0, 0⟩
          (memWith 0x400000 0x1B027C20))).NEXT_STATE.REGS 0 = 0 := by
  decide

/-! ## Results of single steps, for the two-step properties -/

theorem adds_imm_result (m : Machine)
    (h : mem_read_32 m.MEM m.CURRENT_STATE.PC &&& 0x7FC00000 = 0x31000000)
    (hrd : mem_read_32 m.MEM m.CURRENT_STATE.PC &&& 0x1F ≠ 31) :
    (process_instruction m).NEXT_STATE.REGS (mem_read_32 m.MEM m.CURRENT_STATE.PC &&& 0x1F) =
      (m.CURRENT_STATE.REGS ((mem_read_32 m.MEM m.CURRENT_STATE.PC >>> 5) &&& 0x1F) +
        ((mem_read_32 m.MEM m.CURRENT_STATE.PC >>> 10) &&& 0xFFF)) % 2 ^ 64 := by
  have hs : (mem_read_32 m.MEM m.CURRENT_STATE.PC >>> 22) &&& 0x3 = 0 := by
    rw [field_of_mask h 22 3 (by decide)]; decide
  simp +decide (disch := decide) only [process_instruction, mask_test_false h, h, false_and,
    or_self, or_true, true_or, or_false, false_or, if_false, if_true, decode_i_type, writeRd,
    setNextReg, setNextPC, update_flags, Nat.shiftRight_zero, hrd, hs, ne_eq,
    not_false_eq_true, X31, wrap64_toInt64_add_nat]
  rw [Function.update_noteq hrd, Function.update_same]

theorem subs_imm_result (m : Machine)
    (h : mem_read_32 m.MEM m.CURRENT_STATE.PC &&& 0x7FC00000 = 0x71000000)
    (hrd : mem_read_32 m.MEM m.CURRENT_STATE.PC &&& 0x1F ≠ 31) :
    (process_instruction m).NEXT_STATE.REGS (mem_read_32 m.MEM m.CURRENT_STATE.PC &&& 0x1F) =
      wrap64 ((m.CURRENT_STATE.REGS ((mem_read_32 m.MEM m.CURRENT_STATE.PC >>> 5) &&& 0x1F) : Int) -
        (((mem_read_32 m.MEM m.CURRENT_STATE.PC >>> 10) &&& 0xFFF : Nat) : Int)) := by
  have hs : (mem_read_32 m.MEM m.CURRENT_STATE.PC >>> 22) &&& 0x3 = 0 := by
    rw [field_of_mask h 22 3 (by decide)]; decide
  simp +decide (disch := decide) only [process_instruction, mask_test_false h, h, false_and,
    or_self, or_true, true_or, or_false, false_or, if_false, if_true, decode_i_type, writeRd,
    setNextReg, setNextPC, update_flags, Nat.shiftRight_zero, hrd, hs, ne_eq,
    not_false_eq_true, X31, wrap64_toInt64_sub_nat]
  rw [Function.update_noteq hrd, Function.update_same]

theorem adds_reg_result (m : Machine)
    (h : mem_read_32 m.MEM m.CURRENT_STATE.PC &&& 0x7FE0FC00 = 0x2B200000)
    (hrd : mem_read_32 m.MEM m.CURRENT_STATE.PC &&& 0x1F ≠ 31) :
    (process_instruction m).NEXT_STATE.REGS (mem_read_32 m.MEM m.CURRENT_STATE.PC &&& 0x1F) =
      (m.CURRENT_STATE.REGS ((mem_read_32 m.MEM m.CURRENT_STATE.PC >>> 5) &&& 0x1F) +
        m.CURRENT_STATE.REGS ((mem_read_32 m.MEM m.CURRENT_STATE.PC >>> 16) &&& 0x1F)) % 2 ^ 64 := by
  simp +decide (disch := decide) only [process_instruction, mask_test_false h, h, false_and,
    or_self, if_false, if_true, decode_r_type, writeRd,
    setNextReg, setNextPC, update_flags, Nat.shiftRight_zero, hrd, ne_eq,
    not_false_eq_true, X31, wrap64_toInt64_add]
  rw [Function.update_noteq hrd, Function.update_same]

theorem subs_reg_result (m : Machine)
    (h : mem_read_32 m.MEM m.CURRENT_STATE.PC &&& 0x7FE0FC00 = 0x6B200000)
    (hrd : mem_read_32 m.MEM m.CURRENT_STATE.PC &&& 0x1F ≠ 31) :
    (process_instruction m).NEXT_STATE.REGS (mem_read_32 m.MEM m.CURRENT_STATE.PC &&& 0x1F) =
      wrap64 ((m.CURRENT_STATE.REGS ((mem_read_32 m.MEM m.CURRENT_STATE.PC >>> 5) &&& 0x1F) : Int) -
        (m.CURRENT_STATE.REGS ((mem_read_32 m.MEM m.CURRENT_STATE.PC >>> 16) &&& 0x1F) : Int)) := by
  simp +decide (disch := decide) only [process_instruction, mask_test_false h, h, false_and,
    or_self, if_false, if_true, decode_r_type, writeRd,
    setNextReg, setNextPC, update_flags, Nat.shiftRight_zero, hrd, ne_eq,
    not_false_eq_true, X31, wrap64_toInt64_sub]
  rw [Function.update_noteq hrd, Function.update_same]

theorem lsl_result (m : Machine)
    (h : mem_read_32 m.MEM m.CURRENT_STATE.PC &&& 0xFFE0FC00 = 0x1AC02000)
    (hrd : mem_read_32 m.MEM m.CURRENT_STATE.PC &&& 0x1F ≠ 31) :
    (process_instruction m).NEXT_STATE.REGS (mem_read_32 m.MEM m.CURRENT_STATE.PC &&& 0x1F) =
      (m.CURRENT_STATE.REGS ((mem_read_32 m.MEM m.CURRENT_STATE.PC >>> 5) &&& 0x1F) <<<
        (m.CURRENT_STATE.REGS ((mem_read_32 m.MEM m.CURRENT_STATE.PC >>> 16) &&& 0x1F) &&& 0x3F))
        % 2 ^ 64 := by
  simp +decide (disch := decide) only [process_instruction, mask_test_false h, h, false_and,
    or_self, if_false, if_true, decode_r_type, writeRd,
    setNextReg, setNextPC, Nat.shiftRight_zero, hrd, ne_eq, not_false_eq_true, X31]
  rw [Function.update_noteq hrd, Function.update_same]

theorem lsr_result (m : Machine)
    (h : mem_read_32 m.MEM m.CURRENT_STATE.PC &&& 0xFFE0FC00 = 0x1AC02400)
    (hrd : mem_read_32 m.MEM m.CURRENT_STATE.PC &&& 0x1F ≠ 31) :
    (process_instruction m).NEXT_STATE.REGS (mem_read_32 m.MEM m.CURRENT_STATE.PC &&& 0x1F) =
      (m.CURRENT_STATE.REGS ((mem_read_32 m.MEM m.CURRENT_STATE.PC >>> 5) &&& 0x1F) % 2 ^ 64) >>>
        (m.CURRENT_STATE.REGS ((mem_read_32 m.MEM m.CURRENT_STATE.PC >>> 16) &&& 0x1F) &&& 0x3F) := by
  simp +decide (disch := decide) only [process_instruction, mask_test_false h, h, false_and,
    or_self, if_false, if_true, decode_r_type, writeRd,
    setNextReg, setNextPC, Nat.shiftRight_zero, hrd, ne_eq, not_false_eq_true, X31]
  rw [Function.update_noteq hrd, Function.update_same]

/-- After a cycle whose word is not HLT, a register other than 31 and other than the
destination field holds what it held before, and register 31 holds 0. -/
theorem cycle_reg (m : Machine) (i : Nat)
    (hH : mem_read_32 m.MEM m.CURRENT_STATE.PC &&& 0xFFFFFFE0 ≠ 0xD4400000)
    (hi : i ≠ mem_read_32 m.MEM m.CURRENT_STATE.PC &&& 0x1F ∨
      mem_read_32 m.MEM m.CURRENT_STATE.PC &&& 0x1F = 31)
    (h31 : i ≠ 31 ∨ m.CURRENT_STATE.REGS 31 = 0) :
    (cycle m).CURRENT_STATE.REGS i = m.CURRENT_STATE.REGS i := by
  show (process_instruction m).NEXT_STATE.REGS i = m.CURRENT_STATE.REGS i
  by_cases hi31 : i = 31
  · subst hi31
    rw [x31_zero_of_not_hlt m hH]
    rcases h31 with h | h
    · exact absurd rfl h
    · exact h.symm
  · exact regs_frame m i hi31 hi

/-! ## ADDS followed by SUBS -/

theorem flagN_eq_bit63 (nx : CPU_State) (r : Nat) (hr : r < 2 ^ 64) (h : flagsReflect nx r) :
    nx.FLAG_N = r / 2 ^ 63 := by
  obtain ⟨_, hn, _, hn01⟩ := h
  have hmod : r % 2 ^ 64 = r := Nat.mod_eq_of_lt hr
  by_cases hneg : r < 2 ^ 63
  · have h1 : toInt64 r = (r : Int) := by unfold toInt64; rw [hmod, if_pos hneg]
    rcases hn01 with h0 | h0
    · omega
    · have := hn.1 h0
      rw [h1] at this
      omega
  · have h1 : toInt64 r = (r : Int) - 2 ^ 64 := by unfold toInt64; rw [hmod, if_neg hneg]
    have : nx.FLAG_N = 1 := hn.2 (by rw [h1]; omega)
    omega

theorem restores_of (nx : CPU_State) (e v : Nat) (hv : v < 2 ^ 64) (hreg : nx.REGS e = v)
    (hflag : flagsReflect nx v) : restores nx e v :=
  ⟨hreg, hflag.1, flagN_eq_bit63 nx v hv hflag⟩

theorem wrap64_add_sub_cancel (a k : Nat) :
    wrap64 ((((a + k) % 2 ^ 64 : Nat) : Int) - (k : Int)) = a % 2 ^ 64 := by
  unfold wrap64; omega

/-- ADDS immediate then SUBS immediate with the same immediate restores the source. -/
theorem adds_subs_imm (m : Machine) (d e n imm : Nat) (hd : d ≠ 31) (he : e ≠ 31)
    (h1 : isIForm (fetched m) 0x31000000 d n imm)
    (h2 : isIForm (fetched (cycle m)) 0x71000000 e d imm) :
    restores (process_instruction (cycle m)).NEXT_STATE e (m.CURRENT_STATE.REGS n % 2 ^ 64) := by
  obtain ⟨hm1, hd1, hn1, hi1⟩ := h1
  obtain ⟨hm2, he2, hd2, hi2⟩ := h2
  unfold fetched at hm1 hd1 hn1 hi1 hm2 he2 hd2 hi2
  have r1 : (cycle m).CURRENT_STATE.REGS d = (m.CURRENT_STATE.REGS n + imm) % 2 ^ 64 := by
    have := adds_imm_result m hm1 (by rw [hd1]; exact hd)
    rw [hd1, hn1, hi1] at this
    exact this
  have v2 : wrap64 (((cycle m).CURRENT_STATE.REGS
        ((mem_read_32 (cycle m).MEM (cycle m).CURRENT_STATE.PC >>> 5) &&& 0x1F) : Int) -
        (((mem_read_32 (cycle m).MEM (cycle m).CURRENT_STATE.PC >>> 10) &&& 0xFFF : Nat) : Int))
      = m.CURRENT_STATE.REGS n % 2 ^ 64 := by
    rw [hd2, hi2, r1]
    exact wrap64_add_sub_cancel _ _
  refine restores_of _ _ _ (by omega) ?_ ?_
  · have := subs_imm_result (cycle m) hm2 (by rw [he2]; exact he)
    rw [he2, v2] at this
    exact this
  · exact flags_of_flag_setting (cycle m) _ (Or.inr (Or.inr (Or.inr (Or.inr ⟨hm2, v2.symm⟩))))

/-- ADDS register then SUBS register with the same second operand restores the source,
provided the operand register is not the destination of the ADDS and, if it is register
31, that register held 0 to begin with. -/
theorem adds_subs_reg (m : Machine) (d e n r : Nat) (hd : d ≠ 31) (he : e ≠ 31) (hrd : r ≠ d)
    (hx : r ≠ 31 ∨ m.CURRENT_STATE.REGS 31 = 0)
    (h1 : isRForm (fetched m) 0x7FE0FC00 0x2B200000 d n r)
    (h2 : isRForm (fetched (cycle m)) 0x7FE0FC00 0x6B200000 e d r) :
    restores (process_instruction (cycle m)).NEXT_STATE e (m.CURRENT_STATE.REGS n % 2 ^ 64) := by
  obtain ⟨hm1, hd1, hn1, hr1⟩ := h1
  obtain ⟨hm2, he2, hd2, hr2⟩ := h2
  unfold fetched at hm1 hd1 hn1 hr1 hm2 he2 hd2 hr2
  have r1 : (cycle m).CURRENT_STATE.REGS d =
      (m.CURRENT_STATE.REGS n + m.CURRENT_STATE.REGS r) % 2 ^ 64 := by
    have := adds_reg_result m hm1 (by rw [hd1]; exact hd)
    rw [hd1, hn1, hr1] at this
    exact this
  have r2 : (cycle m).CURRENT_STATE.REGS r = m.CURRENT_STATE.REGS r :=
    cycle_reg m r (mask_ne hm1 _ _ (by decide)) (Or.inl (by rw [hd1]; exact hrd)) hx
  have v2 : wrap64 (((cycle m).CURRENT_STATE.REGS
        ((mem_read_32 (cycle m).MEM (cycle m).CURRENT_STATE.PC >>> 5) &&& 0x1F) : Int) -
        ((cycle m).CURRENT_STATE.REGS
          ((mem_read_32 (cycle m).MEM (cycle m).CURRENT_STATE.PC >>> 16) &&& 0x1F) : Int))
      = m.CURRENT_STATE.REGS n % 2 ^ 64 := by
    rw [hd2, hr2, r1, r2]
    exact wrap64_add_sub_cancel _ _
  refine restores_of _ _ _ (by omega) ?_ ?_
  · have := subs_reg_result (cycle m) hm2 (by rw [he2]; exact he)
    rw [he2, v2] at this
    exact this
  · exact flags_of_flag_setting (cycle m) _ (Or.inr (Or.inl ⟨hm2, v2.symm⟩))

/-- C15 (amended): for register indices `d ≠ 31`, `e ≠ 31`, `n`, executing ADDS
`Xd, Xn, operand`, committing, and executing SUBS `Xe, Xd, operand` leaves `REGS[e]` equal
to the original `REGS[n]` modulo `2^64`, with final `Z = 1` iff that value is 0 and final
`N` its bit 63, for every 12-bit immediate operand and for every register operand `r ≠ d`
that is not register 31 or, being register 31, held 0 in the original state. -/
theorem c15_adds_subs (m : Machine) (d e n : Nat) (hd : d ≠ 31) (he : e ≠ 31) :
    (∀ imm, isIForm (fetched m) 0x31000000 d n imm →
      isIForm (fetched (cycle m)) 0x71000000 e d imm →
      restores (process_instruction (cycle m)).NEXT_STATE e (m.CURRENT_STATE.REGS n % 2 ^ 64)) ∧
    (∀ r, r ≠ d → (r ≠ 31 ∨ m.CURRENT_STATE.REGS 31 = 0) →
      isRForm (fetched m) 0x7FE0FC00 0x2B200000 d n r →
      isRForm (fetched (cycle m)) 0x7FE0FC00 0x6B200000 e d r →
      restores (process_instruction (cycle m)).NEXT_STATE e (m.CURRENT_STATE.REGS n % 2 ^ 64)) :=
  ⟨fun imm h1 h2 => adds_subs_imm m d e n imm hd he h1 h2,
   fun r hrd hx h1 h2 => adds_subs_reg m d e n r hd he hrd hx h1 h2⟩

/-- Witness for C15: from the all-zero state at `PC = 0x400000`, `0xB1000420`
(`ADDS X0, X1, #1`) then `0xF100040C` (`SUBS X12, X0, #1`) leave `X12 = 0`, `Z = 1`,
`N = 0`; the first step stages `X0 = 1` and the second stages `PC = 0x400008`. With
`X1 = 10`, `X2 = 4`, the register forms `0xAB220020` (`ADDS X0, X1, X2`) then `0xEB220003`
(`SUBS X3, X0, X2`) leave `X3 = 10`. -/
theorem c15_adds_subs_witness :
    restores
        (process_instruction
          (cycle (boot (zeroState 0x400000)
            (memOf [(0x400000, 0xB1000420), (0x400004, 0xF100040C)])))).NEXT_STATE 12 0 ∧
      (process_instruction
          (boot (zeroState 0x400000)
            (memOf [(0x400000, 0xB1000420), (0x400004, 0xF100040C)]))).NEXT_STATE.REGS 0 = 1 ∧
      (process_instruction
          (cycle (boot (zeroState 0x400000)
            (memOf [(0x400000, 0xB1000420), (0x400004, 0xF100040C)])))).NEXT_STATE.PC
        = 0x400008 ∧
      restores
        (process_instruction
          (cycle (boot ⟨0x400000, regsOf [(1, 10), (2, 4)], 0, 0⟩
            (memOf [(0x400000, 0xAB220020), (0x400004, 0xEB220003)])))).NEXT_STATE 3 10 :=
  ⟨(c15_adds_subs (boot (zeroState 0x400000)
        (memOf [(0x400000, 0xB1000420), (0x400004, 0xF100040C)])) 0 12 1
      (by decide) (by decide)).1 1 (by decide) (by decide),
   by decide, by decide,
   (c15_adds_subs (boot ⟨0x400000, regsOf [(1, 10), (2, 4)], 0, 0⟩
        (memOf [(0x400000, 0xAB220020), (0x400004, 0xEB220003)])) 0 3 1
      (by decide) (by decide)).2 2 (by decide) (by decide) (by decide) (by decide)⟩

/-- C15 as first stated fails for the operand register 31: with `X1 = 10` and
`REGS[31] = 5`, `ADDS X0, X1, X31` (`0xAB3F0020`) stages `X0 = 15`, the step resets
register 31, and `SUBS X2, X0, X31` (`0xEB3F0002`) then stages `X2 = 15`, not the original
`X1 = 10`. -/
theorem c15_counterexample :
    isRForm (fetched (boot ⟨0x400000, regsOf [(1, 10), (31, 5)], 0, 0⟩
        (memOf [(0x400000, 0xAB3F0020), (0x400004, 0xEB3F0002)]))) 0x7FE0FC00 0x2B200000 0 1 31 ∧
      isRForm (fetched (cycle (boot ⟨0x400000, regsOf [(1, 10), (31, 5)], 0, 0⟩
        (memOf [(0x400000, 0xAB3F0020), (0x400004, 0xEB3F0002)])))) 0x7FE0FC00 0x6B200000 2 0 31 ∧
      ¬ ((process_instruction (cycle (boot ⟨0x400000, regsOf [(1, 10), (31, 5)], 0, 0⟩
          (memOf [(0x400000, 0xAB3F0020), (0x400004, 0xEB3F0002)])))).NEXT_STATE.REGS 2 =
        (boot ⟨0x400000, regsOf [(1, 10), (31, 5)], 0, 0⟩
          (memOf [(0x400000, 0xAB3F0020), (0x400004, 0xEB3F0002)])).CURRENT_STATE.REGS 1
          % 2 ^ 64) := by
  decide

/-! ## LSL followed by LSR -/

theorem lsl_lsr_cancel (a k : Nat) (hk : k < 64) (ha : a < 2 ^ (64 - k)) :
    ((a <<< k) % 2 ^ 64 % 2 ^ 64) >>> k = a := by
  have hlt : a * 2 ^ k < 2 ^ 64 := by
    calc a * 2 ^ k < 2 ^ (64 - k) * 2 ^ k := Nat.mul_lt_mul_of_pos_right ha (Nat.pow_pos (by decide))
      _ = 2 ^ 64 := by rw [← Nat.pow_add]; congr 1; omega
  rw [Nat.shiftLeft_eq, Nat.shiftRight_eq_div_pow, Nat.mod_mod, Nat.mod_eq_of_lt hlt,
    Nat.mul_div_cancel _ (Nat.pow_pos (by decide))]

/-- C16 (amended): for `d ≠ 31`, `e ≠ 31`, `n` and an operand register `r ≠ d` that is
not register 31 or, being register 31, held 0 in the original state, with
`k = REGS[r] & 0x3F`: if the top `k` bits of `REGS[n]` are zero, executing LSL
`Xd, Xn, Xr`, committing, and executing LSR `Xe, Xd, Xr` leaves `REGS[e]` equal to the
original `REGS[n]`. And a single LSL whose `REGS[r]` has its low 6 bits zero stages
`REGS[d] = REGS[n]` (a 64-bit value). -/
theorem c16_lsl_lsr (m : Machine) (d e n r : Nat) (hd : d ≠ 31) (he : e ≠ 31) :
    (r ≠ d → (r ≠ 31 ∨ m.CURRENT_STATE.REGS 31 = 0) →
      m.CURRENT_STATE.REGS n < 2 ^ (64 - (m.CURRENT_STATE.REGS r &&& 0x3F)) →
      isRForm (fetched m) 0xFFE0FC00 0x1AC02000 d n r →
      isRForm (fetched (cycle m)) 0xFFE0FC00 0x1AC02400 e d r →
      (process_instruction (cycle m)).NEXT_STATE.REGS e = m.CURRENT_STATE.REGS n) ∧
    (m.CURRENT_STATE.REGS r &&& 0x3F = 0 → m.CURRENT_STATE.REGS n < 2 ^ 64 →
      isRForm (fetched m) 0xFFE0FC00 0x1AC02000 d n r →
      (process_instruction m).NEXT_STATE.REGS d = m.CURRENT_STATE.REGS n) := by
  constructor
  · intro hrd hx htop h1 h2
    obtain ⟨hm1, hd1, hn1, hr1⟩ := h1
    obtain ⟨hm2, he2, hd2, hr2⟩ := h2
    unfold fetched at hm1 hd1 hn1 hr1 hm2 he2 hd2 hr2
    have r1 : (cycle m).CURRENT_STATE.REGS d =
        (m.CURRENT_STATE.REGS n <<< (m.CURRENT_STATE.REGS r &&& 0x3F)) % 2 ^ 64 := by
      have := lsl_result m hm1 (by rw [hd1]; exact hd)
      rw [hd1, hn1, hr1] at this
      exact this
    have r2 : (cycle m).CURRENT_STATE.REGS r = m.CURRENT_STATE.REGS r :=
      cycle_reg m r (mask_ne hm1 _ _ (by decide)) (Or.inl (by rw [hd1]; exact hrd)) hx
    have := lsr_result (cycle m) hm2 (by rw [he2]; exact he)
    rw [he2, hd2, hr2, r1, r2] at this
    rw [this]
    exact lsl_lsr_cancel _ _ (Nat.and_lt_two_pow _ (by decide : 0x3F < 2 ^ 6)) htop
  · intro hk hn h1
    obtain ⟨hm1, hd1, hn1, hr1⟩ := h1
    unfold fetched at hm1 hd1 hn1 hr1
    have := lsl_result m hm1 (by rw [hd1]; exact hd)
    rw [hd1, hn1, hr1, hk, Nat.shiftLeft_zero, Nat.mod_eq_of_lt hn] at this
    exact this

/-- Witness for C16: with `X1 = 3`, `X2 = 4`, `LSL X0, X1, X2` (`0x1AC22020`) then
`LSR X3, X0, X2` (`0x1AC22403`) leave `X3 = 3`; with `X2 = 64` (low 6 bits zero) the single
LSL stages `X0 = 3`. -/
theorem c16_lsl_lsr_witness :
    (process_instruction
        (cycle (boot ⟨0x400000, regsOf [(1, 3), (2, 4)], 0, 0⟩
          (memOf [(0x400000, 0x1AC22020), (0x400004, 0x1AC22403)])))).NEXT_STATE.REGS 3 = 3 ∧
    (process_instruction
        (boot ⟨0x400000, regsOf [(1, 3), (2, 64)], 0, 0⟩
          (memOf [(0x400000, 0x1AC22020)]))).NEXT_STATE.REGS 0 = 3 :=
  ⟨(c16_lsl_lsr (boot ⟨0x400000, regsOf [(1, 3), (2, 4)], 0, 0⟩
        (memOf [(0x400000, 0x1AC22020), (0x400004, 0x1AC22403)])) 0 3 1 2
      (by decide) (by decide)).1 (by decide) (by decide) (by decide) (by decide) (by decide),
   (c16_lsl_lsr (boot ⟨0x400000, regsOf [(1, 3), (2, 64)], 0, 0⟩
        (memOf [(0x400000, 0x1AC22020)])) 0 3 1 2
      (by decide) (by decide)).2 (by decide) (by decide) (by decide)⟩

/-- C16 as first stated fails for the operand register 31: with `X1 = 1` and
`REGS[31] = 5` (so `k = 5` and the top 5 bits of `X1` are zero), `LSL X0, X1, X31`
(`0x1ADF2020`) stages `X0 = 32`, the step resets register 31, and `LSR X2, X0, X31`
(`0x1ADF2402`) then shifts by 0 and stages `X2 = 32`, not the original `X1 = 1`. -/
theorem c16_counterexample :
    isRForm (fetched (boot ⟨0x400000, regsOf [(1, 1), (31, 5)], 0, 0⟩
        (memOf [(0x400000, 0x1ADF2020), (0x400004, 0x1ADF2402)]))) 0xFFE0FC00 0x1AC02000 0 1 31 ∧
      isRForm (fetched (cycle (boot ⟨0x400000, regsOf [(1, 1), (31, 5)], 0, 0⟩
        (memOf [(0x400000, 0x1ADF2020), (0x400004, 0x1ADF2402)])))) 0xFFE0FC00 0x1AC02400 2 0 31 ∧
      (boot ⟨0x400000, regsOf [(1, 1), (31, 5)], 0, 0⟩
          (memOf [(0x400000, 0x1ADF2020), (0x400004, 0x1ADF2402)])).CURRENT_STATE.REGS 1 <
        2 ^ (64 - ((boot ⟨0x400000, regsOf [(1, 1), (31, 5)], 0, 0⟩
          (memOf [(0x400000, 0x1ADF2020), (0x400004, 0x1ADF2402)])).CURRENT_STATE.REGS 31
            &&& 0x3F)) ∧
      ¬ ((process_instruction (cycle (boot ⟨0x400000, regsOf [(1, 1), (31, 5)], 0, 0⟩
          (memOf [(0x400000, 0x1ADF2020), (0x400004, 0x1ADF2402)])))).NEXT_STATE.REGS 2 =
        (boot ⟨0x400000, regsOf [(1, 1), (31, 5)], 0, 0⟩
          (memOf [(0x400000, 0x1ADF2020), (0x400004, 0x1ADF2402)])).CURRENT_STATE.REGS 1) := by
  decide

/-! ## STUR followed by LDUR -/

/-- The machine left by a STUR word. -/
theorem step_stur (m : Machine)
    (h : mem_read_32 m.MEM m.CURRENT_STATE.PC &&& 0xFFC00000 = 0xF8000000) :
    process_instruction m =
      { CURRENT_STATE := m.CURRENT_STATE
        NEXT_STATE :=
          { m.CURRENT_STATE with
            PC := (m.CURRENT_STATE.PC + 4) % 2 ^ 64
            REGS := Function.update m.CURRENT_STATE.REGS 31 0 }
        RUN_BIT := m.RUN_BIT
        MEM := mem_write_32 m.MEM (dAddr m.CURRENT_STATE (mem_read_32 m.MEM m.CURRENT_STATE.PC))
          (m.CURRENT_STATE.REGS (mem_read_32 m.MEM m.CURRENT_STATE.PC &&& 0x1F)) } := by
  simp +decide (disch := decide) only [process_instruction, mask_test_false h, h, false_and,
    or_self, or_true, true_or, or_false, false_or, if_false, if_true, decode_d_type,
    setNextReg, setNextPC, Nat.shiftRight_zero, wrap64_toInt64_add_nat, mem_write_32_mod, dAddr]

theorem signExtend_mod (x : Nat) : signExtend 32 (x % 2 ^ 32) = signExtend 32 x := by
  unfold signExtend
  rw [Nat.mod_mod]

theorem signExtend32_fits (x : Nat) (hx : x < 2 ^ 64) :
    wrap64 (signExtend 32 x) = x ↔ (-(2 ^ 31) ≤ toInt64 x ∧ toInt64 x < 2 ^ 31) := by
  unfold wrap64 signExtend toInt64
  norm_num
  split_ifs <;> omega

/-- C20 (amended): for register indices `t`, `n`, `d` with `d ≠ 31` and `n` not register
31 or, being register 31, holding 0 in the original state, and every 9-bit offset `o`:
executing STUR `Xt, [Xn, #o]`, committing, and executing LDUR `Xd, [Xn, #o]` leaves
`REGS[d]` equal to the low 32 bits of the original `REGS[t]` sign-extended to 64 bits; so
the original 64-bit value is recovered exactly when it fits in a signed 32-bit integer. -/
theorem c20_stur_ldur (m : Machine) (t n d o : Nat) (hd : d ≠ 31)
    (hx : n ≠ 31 ∨ m.CURRENT_STATE.REGS 31 = 0)
    (h1 : isDForm (fetched m) 0xF8000000 t n o)
    (h2 : isDForm (fetched (cycle m)) 0xF8400000 d n o) :
    (process_instruction (cycle m)).NEXT_STATE.REGS d =
        wrap64 (signExtend 32 (m.CURRENT_STATE.REGS t)) ∧
      (m.CURRENT_STATE.REGS t < 2 ^ 64 →
        ((process_instruction (cycle m)).NEXT_STATE.REGS d = m.CURRENT_STATE.REGS t ↔
          (-(2 ^ 31) ≤ toInt64 (m.CURRENT_STATE.REGS t) ∧
            toInt64 (m.CURRENT_STATE.REGS t) < 2 ^ 31))) := by
  obtain ⟨hm1, ht1, hn1, ho1⟩ := h1
  obtain ⟨hm2, hd2, hn2, ho2⟩ := h2
  unfold fetched at hm1 ht1 hn1 ho1 hm2 hd2 hn2 ho2
  have hmem : (cycle m).MEM =
      mem_write_32 m.MEM ((m.CURRENT_STATE.REGS n + o) % 2 ^ 64) (m.CURRENT_STATE.REGS t) := by
    show (process_instruction m).MEM = _
    rw [step_stur m hm1]
    simp only [dAddr, hn1, ho1, ht1]
  have hregs : (cycle m).CURRENT_STATE.REGS n = m.CURRENT_STATE.REGS n := by
    show (process_instruction m).NEXT_STATE.REGS n = _
    rw [step_stur m hm1]
    show Function.update m.CURRENT_STATE.REGS 31 0 n = _
    by_cases hn31 : n = 31
    · subst hn31
      rcases hx with hx | hx
      · exact absurd rfl hx
      · rw [Function.update_same, hx]
    · exact Function.update_noteq hn31 _ _
  have hload : (process_instruction (cycle m)).NEXT_STATE.REGS d =
      wrap64 (signExtend 32 (m.CURRENT_STATE.REGS t)) := by
    have := ldur_result (cycle m) hm2 (by rw [hd2]; exact hd)
    rw [hd2] at this
    rw [this]
    simp only [dAddr, hn2, ho2, hregs]
    rw [hmem, mem_read_write_same, signExtend_mod]
  refine ⟨hload, ?_⟩
  intro hwf
  rw [hload]
  exact signExtend32_fits _ hwf

/-- Witness for C20: with `X1 = 0xFFFFFFFF80000001` and `X2 = 0x1000`,
`STUR X1, [X2, #8]` (`0xF8008041`) then `LDUR X3, [X2, #8]` (`0xF8408043`) leave
`X3 = 0xFFFFFFFF80000001`. -/
theorem c20_stur_ldur_witness :
    (process_instruction
        (cycle (boot ⟨0x400000, regsOf [(1, 0xFFFFFFFF80000001), (2, 0x1000)], 0, 0⟩
          (memOf [(0x400000, 0xF8008041), (0x400004, 0xF8408043)])))).NEXT_STATE.REGS 3
      = 0xFFFFFFFF80000001 :=
  ((c20_stur_ldur
      (boot ⟨0x400000, regsOf [(1, 0xFFFFFFFF80000001), (2, 0x1000)], 0, 0⟩
        (memOf [(0x400000, 0xF8008041), (0x400004, 0xF8408043)])) 1 2 3 8
      (by decide) (by decide) (by decide) (by decide)).1).trans (by decide)

/-- C20 as first stated fails for the base register 31: with `X1 = 7` and `REGS[31] = 8`,
`STUR X1, [X31, #0]` (`0xF80003E1`) writes 7 at address 8, the step resets register 31,
and `LDUR X2, [X31, #0]` (`0xF84003E2`) then reads address 0 and stages `X2 = 0`, not the
sign-extended low word 7 of the original `X1`. -/
theorem c20_counterexample :
    isDForm (fetched (boot ⟨0x400000, regsOf [(1, 7), (31, 8)], 0, 0⟩
        (memOf [(0x400000, 0xF80003E1), (0x400004, 0xF84003E2)]))) 0xF8000000 1 31 0 ∧
      isDForm (fetched (cycle (boot ⟨0x400000, regsOf [(1, 7), (31, 8)], 0, 0⟩
        (memOf [(0x400000, 0xF80003E1), (0x400004, 0xF84003E2)])))) 0xF8400000 2 31 0 ∧
      ¬ ((process_instruction (cycle (boot ⟨0x400000, regsOf [(1, 7), (31, 8)], 0, 0⟩
          (memOf [(0x400000, 0xF80003E1), (0x400004, 0xF84003E2)])))).NEXT_STATE.REGS 2 =
        wrap64 (signExtend 32 ((boot ⟨0x400000, regsOf [(1, 7), (31, 8)], 0, 0⟩
          (memOf [(0x400000, 0xF80003E1), (0x400004, 0xF84003E2)])).CURRENT_STATE.REGS 1))) := by
  decide

end Sim
